import Mathlib

/-!
# VirtualVistaVulkan: the renderer's lifecycle and frame step, settings, reflection

A shallow embedding of `src/src/VulkanRenderer.cpp`, followed by those of
`Settings.cpp` and of `Shader::reflectDescriptorTypes` in `src/src/Shader.cpp`.

The renderer talks to three kinds of things it does not own: the Vulkan C
API, the windowing wrapper and the collaborators (`VulkanDevice`,
`VulkanSwapChain`, `VulkanRenderPass`, `Scene`).  Every such call is recorded, in program
order, in a list of `Call`s; what the outside world answers is read from an
`Env`.  Member functions become actions over the renderer's fields that
return a result (or the failure that was thrown), the fields afterwards and
the calls made.

`Settings` is embedded over a small heap holding the static pointer
`instance_`; the reflection over the shader's fields, with what SPIRV-Cross
reports and the standard library's sort as inputs.
-/

namespace vv

/-- Handles handed out by the driver (VkInstance, VkSemaphore, VkFramebuffer,
VkCommandBuffer, VkDebugReportCallbackEXT). -/
abbrev Handle := Nat

/-- Adapters are the VkPhysicalDevice values vkEnumeratePhysicalDevices reports. -/
abbrev Adapter := Nat

/-- Result codes of the C API, as far as the renderer tells them apart. -/
inductive VkResult
  | VK_SUCCESS
  | VK_ERROR_EXTENSION_NOT_PRESENT
  | VK_ERROR_INITIALIZATION_FAILED
  deriving DecidableEq, Repr

/-- Extent of the swap chain images (VkExtent2D). -/
structure VkExtent2D where
  width : Nat
  height : Nat
  deriving DecidableEq, Repr

/-- Pipeline stages named by the renderer. -/
inductive VkPipelineStageFlags
  | VK_PIPELINE_STAGE_COLOR_ATTACHMENT_OUTPUT_BIT
  deriving DecidableEq, Repr

/-- Command buffer levels. -/
inductive VkCommandBufferLevel
  | VK_COMMAND_BUFFER_LEVEL_PRIMARY
  | VK_COMMAND_BUFFER_LEVEL_SECONDARY
  deriving DecidableEq, Repr

/-- Usage flags of vkBeginCommandBuffer. -/
inductive VkCommandBufferUsageFlags
  | VK_COMMAND_BUFFER_USAGE_SIMULTANEOUS_USE_BIT
  deriving DecidableEq, Repr

/-- Subpass contents of a render pass begin. -/
inductive VkSubpassContents
  | VK_SUBPASS_CONTENTS_INLINE
  deriving DecidableEq, Repr

/-- The VkSubmitInfo `run` fills in: the arrays with their counts. -/
structure VkSubmitInfo where
  pWaitSemaphores : List Handle
  pWaitDstStageMask : List VkPipelineStageFlags
  pCommandBuffers : List Handle
  pSignalSemaphores : List Handle
  deriving DecidableEq, Repr

/-- Calls that leave `VulkanRenderer.cpp`: the Vulkan C API, `new`/`delete` of
the collaborator objects, and the collaborators' member functions.  A call
on a logical device or its queue names the adapter the device was made on. -/
inductive Call
  -- windowing wrapper
  | GLFWWindow_new
  | window_create
  | window_createSurface (inst : Handle)
  | window_run
  | window_shutDown (inst : Handle)
  | window_delete
  -- instance and debug report
  | vkEnumerateInstanceLayerProperties (fill : Bool)
  | vkEnumerateInstanceExtensionProperties (fill : Bool)
  | vkCreateInstance (extensions layers : List String) (inst : Handle)
  | vkDestroyInstance (inst : Handle)
  | vkGetInstanceProcAddr (inst : Handle) (name : String)
  | vkCreateDebugReportCallbackEXT (inst callback : Handle)
  | vkDestroyDebugReportCallbackEXT (inst callback : Handle)
  -- devices
  | vkEnumeratePhysicalDevices (inst : Handle) (fill : Bool)
  | VulkanDevice_new
  | device_create (a : Adapter)
  | device_isSuitable (a : Adapter)
  | device_createLogicalDevice (a : Adapter)
  | device_shutDown (a : Adapter)
  | device_delete (a : Adapter)
  | vkDeviceWaitIdle (dev : Adapter)
  -- presentation chain, render pass, frame buffers
  | VulkanSwapChain_new
  | swap_chain_create (dev : Adapter)
  | swap_chain_acquireNextImage (dev : Adapter) (signal : Handle)
  | swap_chain_queuePresent (queue : Adapter) (image_index : Nat) (wait : Handle)
  | swap_chain_shutDown (dev : Adapter)
  | swap_chain_delete
  | VulkanRenderPass_new
  | render_pass_create (dev : Adapter)
  | render_pass_beginRenderPass (cb : Handle) (contents : VkSubpassContents)
      (frame_buffer : Handle) (extent : VkExtent2D)
  | render_pass_endRenderPass (cb : Handle)
  | render_pass_shutDown
  | render_pass_delete
  | vkCreateFramebuffer (dev : Adapter) (color_view : Nat) (extent : VkExtent2D)
      (frame_buffer : Handle)
  | vkDestroyFramebuffer (dev : Adapter) (frame_buffer : Handle)
  -- synchronization
  | createVulkanSemaphore (dev : Adapter) (semaphore : Handle)
  | vkDestroySemaphore (dev : Adapter) (semaphore : Handle)
  -- scene
  | Scene_new
  | scene_create (dev : Adapter)
  | scene_updateUniformData (extent : VkExtent2D) (delta_time : Nat)
  | scene_allocateSceneDescriptorSets
  | scene_render (cb : Handle)
  | scene_shutDown
  -- command buffers and submission
  | vkAllocateCommandBuffers (dev : Adapter) (pool : String)
      (level : VkCommandBufferLevel) (commandBufferCount : Nat) (buffers : List Handle)
  | vkBeginCommandBuffer (cb : Handle) (flags : VkCommandBufferUsageFlags)
  | vkEndCommandBuffer (cb : Handle)
  | vkQueueSubmit (queue : Adapter) (submit : VkSubmitInfo)
  deriving DecidableEq, Repr

/-- What a member function can end with instead of returning. -/
inductive Failure
  | runtime_error
  | out_of_date
  | undefined_behaviour
  deriving DecidableEq, Repr

/-- Modelled from the spec: `VulkanSwapChain::acquireNextImage` is not among the
sources.  Section 4.2 gives its contract as
`acquireNextImage(device, signalSemaphore) -> imageIndex | fails with OutOfDateError`,
the out-of-date failure being distinct from a fatal one. -/
inductive AcquireResult
  | image (image_index : Nat)
  | out_of_date
  | fatal
  deriving DecidableEq, Repr

/-- The outside world as one renderer call sees it. -/
structure Env where
  /-- whether `_DEBUG` is defined -/
  debug : Bool
  /-- `used_validation_layers_`, declared in the header -/
  used_validation_layers_ : List String
  /-- `used_instance_extensions_`, declared in the header -/
  used_instance_extensions_ : List String
  /-- `window_->glfw_extensions`, `glfw_extension_count` of them -/
  glfw_extensions : List String
  /-- layer names vkEnumerateInstanceLayerProperties reports -/
  available_layers : List String
  /-- extension names vkEnumerateInstanceExtensionProperties reports -/
  available_extensions : List String
  /-- whether vkGetInstanceProcAddr finds the debug report entry points -/
  debug_report_present : Bool
  /-- adapters vkEnumeratePhysicalDevices reports, in enumeration order -/
  physical_devices : List Adapter
  /-- `VulkanDevice::isSuitable` against the window surface -/
  isSuitable : Adapter → Bool
  /-- number of color image views of a swap chain created now -/
  color_image_views : Nat
  /-- extent of a swap chain created now -/
  extent : VkExtent2D
  /-- what the next image acquisition answers -/
  acquire : AcquireResult
  /-- whether a call fails: a C API call by its result code, a collaborator by throwing -/
  fails : Call → Bool

/-- The presentation chain as the renderer reads it. -/
structure VulkanSwapChain where
  color_image_views : Nat
  extent : VkExtent2D
  deriving DecidableEq, Repr

/-- Fields of `VulkanRenderer` that the member functions read or write.  The
pointers `window_`, `render_pass_` and `scene_` carry nothing the renderer reads;
the calls made through them are in the call list.  `surface_settings` holds the
keys of `window_->surface_settings`.  `issued` is not a C++ field: it counts the
handles the driver has handed out, so that every new object gets a new handle. -/
structure VulkanRenderer where
  instance_ : Handle
  debug_callback_ : Handle
  physical_device_ : Option Adapter
  surface_settings : List Adapter
  swap_chain_ : VulkanSwapChain
  frame_buffers_ : List Handle
  command_buffers_ : List Handle
  image_ready_semaphore_ : Handle
  rendering_complete_semaphore_ : Handle
  issued : Nat
  deriving DecidableEq, Repr

/-- Outcome of a member function: its result or the failure thrown, the fields
afterwards, and the calls it made, oldest first. -/
structure Out (α : Type) where
  res : Except Failure α
  st : VulkanRenderer
  calls : List Call

/-- A member function: from the fields before to its outcome. -/
def Act (α : Type) : Type := VulkanRenderer → Out α

namespace Act

/-- Return without touching anything. -/
def ret {α : Type} (a : α) : Act α := fun w => ⟨.ok a, w, []⟩

/-- Sequencing: a failure of the first part ends the whole; otherwise the calls
of the second part follow those of the first. -/
def andThen {α β : Type} (m : Act α) (f : α → Act β) : Act β := fun w =>
  match (m w).res with
  | .ok a => ⟨(f a (m w).st).res, (f a (m w).st).st, (m w).calls ++ (f a (m w).st).calls⟩
  | .error e => ⟨.error e, (m w).st, (m w).calls⟩

instance : Monad Act where
  pure := Act.ret
  bind := Act.andThen

/-- Throw. -/
def throw {α : Type} (e : Failure) : Act α := fun w => ⟨.error e, w, []⟩

/-- Read the fields. -/
def get : Act VulkanRenderer := fun w => ⟨.ok w, w, []⟩

/-- Write fields. -/
def modify (f : VulkanRenderer → VulkanRenderer) : Act Unit := fun w => ⟨.ok (), f w, []⟩

/-- A call whose outcome the renderer does not look at. -/
def emit (c : Call) : Act Unit := fun w => ⟨.ok (), w, [c]⟩

/-- A C API call returning a VkResult. -/
def vk (env : Env) (c : Call) : Act VkResult := fun w =>
  ⟨.ok (if env.fails c then .VK_ERROR_INITIALIZATION_FAILED else .VK_SUCCESS), w, [c]⟩

/-- A collaborator's member function, which reports failure by throwing. -/
def collab (env : Env) (c : Call) : Act Unit := fun w =>
  ⟨if env.fails c then .error .runtime_error else .ok (), w, [c]⟩

/-- The driver hands out a handle it has not handed out before. -/
def fresh : Act Handle := fun w => ⟨.ok w.issued, { w with issued := w.issued + 1 }, []⟩

/-- Run the body for every element, in order; a failure ends the loop. -/
def forEach {α : Type} (f : α → Act Unit) : List α → Act Unit
  | [] => Act.ret ()
  | x :: xs => Act.andThen (f x) (fun _ => forEach f xs)

end Act

open Act

/-- Modelled from the spec: the macro `VV_ASSERT` is defined in `Utils.h`, which
is not among the sources.  Section 7 has a failed requirement during `create()`
be a fatal setup error that aborts; the catch clause of `create()` shows it is
thrown as a `std::runtime_error`. -/
def VV_ASSERT (condition : Bool) : Act Unit :=
  if condition then Act.ret () else Act.throw .runtime_error

/-- Modelled from the spec: the macro `VV_CHECK_SUCCESS` is defined in `Utils.h`,
which is not among the sources.  Section 7 has any required API call that does
not succeed be fatal; it is thrown as a `std::runtime_error`. -/
def VV_CHECK_SUCCESS (success : VkResult) : Act Unit :=
  if success = .VK_SUCCESS then Act.ret () else Act.throw .runtime_error

/-- Dereference `physical_device_`: a null pointer has no logical device. -/
def physical_device (w : VulkanRenderer) : Act Adapter :=
  match w.physical_device_ with
  | some d => Act.ret d
  | none => Act.throw .undefined_behaviour

namespace VulkanRenderer

/-- The `for (const auto& device : physical_devices)` loop of `createVulkanDevices`. -/
def createVulkanDevices.loop (env : Env) : List Adapter → Act Unit
  | [] => Act.ret ()
  | device :: rest => do
    emit .VulkanDevice_new
    modify fun w => { w with physical_device_ := some device }
    collab env (.device_create device)
    emit (.device_isSuitable device)
    if env.isSuitable device then
      collab env (.device_createLogicalDevice device)
      modify fun w => { w with surface_settings := device :: w.surface_settings }
      -- break
    else
      emit (.device_shutDown device)
      emit (.device_delete device)
      modify fun w => { w with physical_device_ := none }
      createVulkanDevices.loop env rest

/-- Embeds `VulkanRenderer::createVulkanDevices`. -/
def createVulkanDevices (env : Env) : Act Unit := do
  let w ← get
  emit (.vkEnumeratePhysicalDevices w.instance_ false)
  let physical_device_count := env.physical_devices.length
  VV_ASSERT (physical_device_count != 0)
  emit (.vkEnumeratePhysicalDevices w.instance_ true)
  createVulkanDevices.loop env env.physical_devices
  let w ← get
  VV_ASSERT (w.physical_device_ != none)

/-- The inner loop of both support checks: `strcmp(name, found) == 0` for some
reported name. -/
def found_in (name : String) : List String → Bool
  | [] => false
  | found :: rest => if name == found then true else found_in name rest

/-- The outer loop of both support checks: false at the first requested name
that is not reported. -/
def all_found (available : List String) : List String → Bool
  | [] => true
  | name :: rest => if !found_in name available then false else all_found available rest

/-- Embeds `VulkanRenderer::getRequiredExtensions`. -/
def getRequiredExtensions (env : Env) : List String :=
  env.glfw_extensions ++ env.used_instance_extensions_

/-- Embeds `VulkanRenderer::checkInstanceExtensionSupport`. -/
def checkInstanceExtensionSupport (env : Env) : Act Bool := do
  let required_extensions := getRequiredExtensions env
  VV_CHECK_SUCCESS (← vk env (.vkEnumerateInstanceExtensionProperties false))
  VV_CHECK_SUCCESS (← vk env (.vkEnumerateInstanceExtensionProperties true))
  pure (all_found env.available_extensions required_extensions)

/-- Embeds `VulkanRenderer::checkValidationLayerSupport`. -/
def checkValidationLayerSupport (env : Env) : Act Bool := do
  VV_CHECK_SUCCESS (← vk env (.vkEnumerateInstanceLayerProperties false))
  VV_CHECK_SUCCESS (← vk env (.vkEnumerateInstanceLayerProperties true))
  pure (all_found env.available_layers env.used_validation_layers_)

/-- Embeds `VulkanRenderer::createVulkanInstance`.  The application and engine names
read from `Settings` and the version numbers are constants of the create info and
are left out of the call. -/
def createVulkanInstance (env : Env) : Act Unit := do
  VV_ASSERT (← checkValidationLayerSupport env)
  VV_ASSERT (← checkInstanceExtensionSupport env)
  let required_extensions := getRequiredExtensions env
  let layers := if env.debug then env.used_validation_layers_ else []
  let inst ← fresh
  VV_CHECK_SUCCESS (← vk env (.vkCreateInstance required_extensions layers inst))
  modify fun w => { w with instance_ := inst }

/-- Embeds `createDebugReportCallbackEXT`. -/
def createDebugReportCallbackEXT (env : Env) (inst : Handle) : Act VkResult := do
  emit (.vkGetInstanceProcAddr inst "vkCreateDebugReportCallbackEXT")
  if env.debug_report_present then
    let callback ← fresh
    let r ← vk env (.vkCreateDebugReportCallbackEXT inst callback)
    if r = .VK_SUCCESS then
      modify fun w => { w with debug_callback_ := callback }
    pure r
  else
    pure .VK_ERROR_EXTENSION_NOT_PRESENT

/-- Embeds `destroyDebugReportCallbackEXT`. -/
def destroyDebugReportCallbackEXT (env : Env) (inst callback : Handle) : Act Unit := do
  if env.debug then
    emit (.vkGetInstanceProcAddr inst "vkDestroyDebugReportCallbackEXT")
    if env.debug_report_present then
      emit (.vkDestroyDebugReportCallbackEXT inst callback)

/-- Embeds `VulkanRenderer::setupDebugCallback`. -/
def setupDebugCallback (env : Env) : Act Unit := do
  if env.debug then
    let w ← get
    VV_CHECK_SUCCESS (← createDebugReportCallbackEXT env w.instance_)

/-- Effect of `std::vector::resize(n)` on a vector of handles: cut to `n`
elements, or filled up with null handles. -/
def resize (v : List Handle) (n : Nat) : List Handle :=
  v.take n ++ List.replicate (n - v.length) 0

/-- Body of the loop of `createFrameBuffers`. -/
def createFrameBuffers.body (env : Env) (i : Nat) : Act Unit := do
  let w ← get
  let dev ← physical_device w
  let frame_buffer ← fresh
  VV_CHECK_SUCCESS (← vk env (.vkCreateFramebuffer dev i w.swap_chain_.extent frame_buffer))
  modify fun w => { w with frame_buffers_ := w.frame_buffers_.set i frame_buffer }

/-- Embeds `VulkanRenderer::createFrameBuffers`. -/
def createFrameBuffers (env : Env) : Act Unit := do
  modify fun w => { w with frame_buffers_ := resize w.frame_buffers_ w.swap_chain_.color_image_views }
  let w ← get
  forEach (createFrameBuffers.body env) (List.range' 0 w.swap_chain_.color_image_views)

/-- Embeds `util::createVulkanSemaphore` as the renderer uses it: a new
semaphore on the logical device, or a throw. -/
def createVulkanSemaphore (env : Env) (dev : Adapter) : Act Handle := do
  let semaphore ← fresh
  collab env (.createVulkanSemaphore dev semaphore)
  pure semaphore

/-- The try block of `create`. -/
def create.body (env : Env) : Act Unit := do
  emit .GLFWWindow_new
  collab env .window_create
  createVulkanInstance env
  let w ← get
  collab env (.window_createSurface w.instance_)
  setupDebugCallback env
  createVulkanDevices env
  emit .VulkanSwapChain_new
  let w ← get
  let dev ← physical_device w
  collab env (.swap_chain_create dev)
  modify fun w => { w with swap_chain_ := ⟨env.color_image_views, env.extent⟩ }
  emit .VulkanRenderPass_new
  collab env (.render_pass_create dev)
  createFrameBuffers env
  let image_ready ← createVulkanSemaphore env dev
  modify fun w => { w with image_ready_semaphore_ := image_ready }
  let rendering_complete ← createVulkanSemaphore env dev
  modify fun w => { w with rendering_complete_semaphore_ := rendering_complete }
  emit .Scene_new
  collab env (.scene_create dev)

/-- Embeds `VulkanRenderer::create`: the catch clause throws what it caught. -/
def create (env : Env) : Act Unit := fun w =>
  match (create.body env w).res with
  | .ok a => ⟨.ok a, (create.body env w).st, (create.body env w).calls⟩
  | .error e => ⟨.error e, (create.body env w).st, (create.body env w).calls⟩

/-- Embeds `VulkanRenderer::shutDown`. -/
def shutDown (env : Env) : Act Unit := do
  let w ← get
  let dev ← physical_device w
  emit (.vkDeviceWaitIdle dev)
  emit (.vkDestroySemaphore dev w.image_ready_semaphore_)
  emit (.vkDestroySemaphore dev w.rendering_complete_semaphore_)
  emit .scene_shutDown
  emit .render_pass_shutDown
  emit .render_pass_delete
  forEach (fun frame_buffer => emit (.vkDestroyFramebuffer dev frame_buffer)) w.frame_buffers_
  emit (.swap_chain_shutDown dev)
  emit .swap_chain_delete
  emit (.device_shutDown dev)
  emit (.device_delete dev)
  emit (.window_shutDown w.instance_)
  emit .window_delete
  destroyDebugReportCallbackEXT env w.instance_ w.debug_callback_
  emit (.vkDestroyInstance w.instance_)

/-- Modelled from the spec: `VulkanSwapChain::acquireNextImage` is not among the
sources.  By section 4.2 it either yields the index of the acquired image or
fails, an out-of-date surface being a failure of its own kind. -/
def acquireNextImage (env : Env) (dev : Adapter) (signal : Handle) : Act Nat := do
  emit (.swap_chain_acquireNextImage dev signal)
  match env.acquire with
  | .image image_index => pure image_index
  | .out_of_date => Act.throw .out_of_date
  | .fatal => Act.throw .runtime_error

/-- Element access `v[i]` of a vector; past the end it is undefined. -/
def at_index (v : List Handle) (i : Nat) : Act Handle :=
  match v[i]? with
  | some h => Act.ret h
  | none => Act.throw .undefined_behaviour

/-- Embeds `VulkanRenderer::run`.  `delta_time` stands for the float, which is only
passed on. -/
def run (env : Env) (delta_time : Nat) : Act Unit := do
  emit .window_run
  let w ← get
  emit (.scene_updateUniformData w.swap_chain_.extent delta_time)
  let dev ← physical_device w
  let image_index ← acquireNextImage env dev w.image_ready_semaphore_
  let command_buffer ← at_index w.command_buffers_ image_index
  let submit_info : VkSubmitInfo :=
    { pWaitSemaphores := [w.image_ready_semaphore_]
      pWaitDstStageMask := [.VK_PIPELINE_STAGE_COLOR_ATTACHMENT_OUTPUT_BIT]
      pCommandBuffers := [command_buffer]
      pSignalSemaphores := [w.rendering_complete_semaphore_] }
  VV_CHECK_SUCCESS (← vk env (.vkQueueSubmit dev submit_info))
  collab env (.swap_chain_queuePresent dev image_index w.rendering_complete_semaphore_)

/-- Body of the loop of `recordCommandBuffers`.  The two clear values are constants
and are left out of the `beginRenderPass` call. -/
def recordCommandBuffers.body (env : Env) (i : Nat) : Act Unit := do
  let w ← get
  let command_buffer ← at_index w.command_buffers_ i
  let frame_buffer ← at_index w.frame_buffers_ i
  VV_CHECK_SUCCESS (← vk env (.vkBeginCommandBuffer command_buffer
    .VK_COMMAND_BUFFER_USAGE_SIMULTANEOUS_USE_BIT))
  emit (.render_pass_beginRenderPass command_buffer .VK_SUBPASS_CONTENTS_INLINE frame_buffer
    w.swap_chain_.extent)
  emit (.scene_render command_buffer)
  emit (.render_pass_endRenderPass command_buffer)
  VV_CHECK_SUCCESS (← vk env (.vkEndCommandBuffer command_buffer))

/-- Embeds `VulkanRenderer::recordCommandBuffers`.  The driver writes
`commandBufferCount` handles it has not handed out before into the vector. -/
def recordCommandBuffers (env : Env) : Act Unit := do
  modify fun w => { w with command_buffers_ := resize w.command_buffers_ w.frame_buffers_.length }
  let w ← get
  let dev ← physical_device w
  let commandBufferCount := w.command_buffers_.length
  let buffers := List.range' w.issued commandBufferCount
  let r ← vk env (.vkAllocateCommandBuffers dev "graphics" .VK_COMMAND_BUFFER_LEVEL_PRIMARY
    commandBufferCount buffers)
  if r = .VK_SUCCESS then
    modify fun w => { w with command_buffers_ := buffers, issued := w.issued + commandBufferCount }
  VV_CHECK_SUCCESS r
  collab env .scene_allocateSceneDescriptorSets
  let w ← get
  forEach (recordCommandBuffers.body env) (List.range' 0 w.command_buffers_.length)

end VulkanRenderer

open VulkanRenderer

/-! ## Resource tracking -/

/-- Resources the renderer creates and destroys. -/
inductive Resource
  | window
  | surface
  | vk_instance (inst : Handle)
  | debug_callback (callback : Handle)
  | device (a : Adapter)
  | logical_device (a : Adapter)
  | swap_chain
  | render_pass
  | frame_buffer (frame_buffer : Handle)
  | semaphore (semaphore : Handle)
  | scene
  | command_buffer (dev : Adapter) (cb : Handle)
  deriving DecidableEq, Repr

/-- Modelled from the spec: what a successful call brings to life.  For the C API
this is the object created; for the collaborators, whose sources are absent, it
is the component of section 3 that their `create` builds.  The C++ objects
themselves, made by `new` and freed by `delete`, are host memory and not resources
in this sense; the calls are in the call list all the same. -/
def acquires : Call → List Resource
  | .window_create => [.window]
  | .window_createSurface _ => [.surface]
  | .vkCreateInstance _ _ inst => [.vk_instance inst]
  | .vkCreateDebugReportCallbackEXT _ callback => [.debug_callback callback]
  | .device_create a => [.device a]
  | .device_createLogicalDevice a => [.logical_device a]
  | .swap_chain_create _ => [.swap_chain]
  | .render_pass_create _ => [.render_pass]
  | .vkCreateFramebuffer _ _ _ frame_buffer => [.frame_buffer frame_buffer]
  | .createVulkanSemaphore _ semaphore => [.semaphore semaphore]
  | .scene_create _ => [.scene]
  | .vkAllocateCommandBuffers dev _ _ _ buffers => buffers.map (.command_buffer dev)
  | _ => []

/-- Modelled from the spec: what a call releases.  For the C API this is the
object destroyed; a collaborator's `shutDown` releases what its `create` built,
the window its surface too, and the device its logical device with the command
pools and the buffers allocated from them. -/
def releases : Call → Resource → Bool
  | .window_shutDown _, .surface => true
  | .window_shutDown _, .window => true
  | .vkDestroyInstance inst, .vk_instance h => inst = h
  | .vkDestroyDebugReportCallbackEXT _ callback, .debug_callback h => callback = h
  | .device_shutDown a, .device b => a = b
  | .device_shutDown a, .logical_device b => a = b
  | .device_shutDown a, .command_buffer b _ => a = b
  | .swap_chain_shutDown _, .swap_chain => true
  | .render_pass_shutDown, .render_pass => true
  | .vkDestroyFramebuffer _ frame_buffer, .frame_buffer h => frame_buffer = h
  | .vkDestroySemaphore _ semaphore, .semaphore h => semaphore = h
  | .scene_shutDown, .scene => true
  | _, _ => false

/-- One call's effect on the live resources: what it releases goes, and what it
acquires is added unless the call failed. -/
def track (fails : Call → Bool) (l : List Resource) (c : Call) : List Resource :=
  l.filter (fun r => !releases c r) ++ (if fails c then [] else acquires c)

/-- Resources created and not yet destroyed after the calls, starting from `l`. -/
def live_from (fails : Call → Bool) (l : List Resource) (calls : List Call) : List Resource :=
  calls.foldl (track fails) l

/-- Resources created and not yet destroyed after the calls. -/
def live (fails : Call → Bool) (calls : List Call) : List Resource :=
  live_from fails [] calls

/-! ## Vocabulary of the statements and proofs -/

/-- Calls put in front of an outcome's calls. -/
def Out.after {α : Type} (cs : List Call) (o : Out α) : Out α := ⟨o.res, o.st, cs ++ o.calls⟩

/-- An environment in which nothing fails: a debug build, three adapters of which
the second and the third are suitable, and a chain of two images. -/
def sample_env : Env :=
  { debug := true
    used_validation_layers_ := []
    used_instance_extensions_ := []
    glfw_extensions := []
    available_layers := []
    available_extensions := []
    debug_report_present := true
    physical_devices := [7, 8, 9]
    isSuitable := fun a => a == 8 || a == 9
    color_image_views := 2
    extent := ⟨800, 600⟩
    acquire := .image 1
    fails := fun _ => false }

/-- The sample environment as a build without `_DEBUG`. -/
def no_debug_env : Env := { sample_env with debug := false }

/-- The renderer before `create`: nothing set; the driver's handles start at 1, 0 being
the null handle. -/
def blank_renderer : VulkanRenderer :=
  { instance_ := 0
    debug_callback_ := 0
    physical_device_ := none
    surface_settings := []
    swap_chain_ := ⟨0, ⟨0, 0⟩⟩
    frame_buffers_ := []
    command_buffers_ := []
    image_ready_semaphore_ := 0
    rendering_complete_semaphore_ := 0
    issued := 1 }

/-- Calls made for an adapter that is examined and rejected. -/
def rejected (x : Adapter) : List Call :=
  [.VulkanDevice_new, .device_create x, .device_isSuitable x, .device_shutDown x, .device_delete x]

/-- Calls made for the adapter that is examined and retained. -/
def accepted (a : Adapter) : List Call :=
  [.VulkanDevice_new, .device_create a, .device_isSuitable a, .device_createLogicalDevice a]

/-- Adapters before the retained one: examined without a throw and found unsuitable. -/
def Rejects (env : Env) (pre : List Adapter) : Prop :=
  ∀ x ∈ pre, env.isSuitable x = false ∧ env.fails (.device_create x) = false

/-- The ways the adapter loop can end. -/
inductive LoopOutcome (env : Env) (ds : List Adapter) (w : VulkanRenderer) : Out Unit → Prop
  | found (pre : List Adapter) (a : Adapter) (post : List Adapter)
      (hds : ds = pre ++ a :: post) (hpre : Rejects env pre)
      (hs : env.isSuitable a = true) (hc : env.fails (.device_create a) = false)
      (hl : env.fails (.device_createLogicalDevice a) = false) :
      LoopOutcome env ds w
        ⟨.ok (), { w with physical_device_ := some a, surface_settings := a :: w.surface_settings },
          pre.flatMap rejected ++ accepted a⟩
  | none_suitable (hpre : Rejects env ds) :
      LoopOutcome env ds w
        ⟨.ok (), if ds = [] then w else { w with physical_device_ := none }, ds.flatMap rejected⟩
  | create_threw (pre : List Adapter) (a : Adapter) (post : List Adapter)
      (hds : ds = pre ++ a :: post) (hpre : Rejects env pre)
      (hc : env.fails (.device_create a) = true) :
      LoopOutcome env ds w
        ⟨.error .runtime_error, { w with physical_device_ := some a },
          pre.flatMap rejected ++ [.VulkanDevice_new, .device_create a]⟩
  | logical_threw (pre : List Adapter) (a : Adapter) (post : List Adapter)
      (hds : ds = pre ++ a :: post) (hpre : Rejects env pre)
      (hs : env.isSuitable a = true) (hc : env.fails (.device_create a) = false)
      (hl : env.fails (.device_createLogicalDevice a) = true) :
      LoopOutcome env ds w
        ⟨.error .runtime_error, { w with physical_device_ := some a }, pre.flatMap rejected ++ accepted a⟩

/-- Adapter a call examines for suitability. -/
def examined : Call → Option Adapter
  | .device_isSuitable a => some a
  | _ => none

/-- Adapter a call creates a logical device on. -/
def logical_device_on : Call → Option Adapter
  | .device_createLogicalDevice a => some a
  | _ => none

/-- The two enumeration calls that precede the adapter loop. -/
def enumerated (inst : Handle) : List Call :=
  [.vkEnumeratePhysicalDevices inst false, .vkEnumeratePhysicalDevices inst true]

/-- The ways `createVulkanDevices` can end. -/
inductive DevicesOutcome (env : Env) (w : VulkanRenderer) : Out Unit → Prop
  | no_adapters (hds : env.physical_devices = []) :
      DevicesOutcome env w ⟨.error .runtime_error, w, [.vkEnumeratePhysicalDevices w.instance_ false]⟩
  | found (pre : List Adapter) (a : Adapter) (post : List Adapter)
      (hds : env.physical_devices = pre ++ a :: post) (hpre : Rejects env pre)
      (hs : env.isSuitable a = true) (hc : env.fails (.device_create a) = false)
      (hl : env.fails (.device_createLogicalDevice a) = false) :
      DevicesOutcome env w
        ⟨.ok (), { w with physical_device_ := some a, surface_settings := a :: w.surface_settings },
          enumerated w.instance_ ++ (pre.flatMap rejected ++ accepted a)⟩
  | none_suitable (hne : env.physical_devices ≠ []) (hpre : Rejects env env.physical_devices) :
      DevicesOutcome env w
        ⟨.error .runtime_error, { w with physical_device_ := none },
          enumerated w.instance_ ++ env.physical_devices.flatMap rejected⟩
  | create_threw (pre : List Adapter) (a : Adapter) (post : List Adapter)
      (hds : env.physical_devices = pre ++ a :: post) (hpre : Rejects env pre)
      (hc : env.fails (.device_create a) = true) :
      DevicesOutcome env w
        ⟨.error .runtime_error, { w with physical_device_ := some a },
          enumerated w.instance_ ++ (pre.flatMap rejected ++ [.VulkanDevice_new, .device_create a])⟩
  | logical_threw (pre : List Adapter) (a : Adapter) (post : List Adapter)
      (hds : env.physical_devices = pre ++ a :: post) (hpre : Rejects env pre)
      (hs : env.isSuitable a = true) (hc : env.fails (.device_create a) = false)
      (hl : env.fails (.device_createLogicalDevice a) = true) :
      DevicesOutcome env w
        ⟨.error .runtime_error, { w with physical_device_ := some a },
          enumerated w.instance_ ++ (pre.flatMap rejected ++ accepted a)⟩

/-- Stages of the renderer's lifecycle: the resources `create` builds and `shutDown`
destroys. -/
inductive Stage
  | window
  | vk_instance
  | debug_hook
  | device
  | presentation_chain
  | render_target_layout
  | frame_buffers
  | synchronization
  | scene
  deriving DecidableEq, Repr

/-- Stage a call builds, for the calls that build one. -/
def builds : Call → Option Stage
  | .window_create => some .window
  | .vkCreateInstance _ _ _ => some .vk_instance
  | .vkCreateDebugReportCallbackEXT _ _ => some .debug_hook
  | .device_createLogicalDevice _ => some .device
  | .swap_chain_create _ => some .presentation_chain
  | .render_pass_create _ => some .render_target_layout
  | .vkCreateFramebuffer _ _ _ _ => some .frame_buffers
  | .createVulkanSemaphore _ _ => some .synchronization
  | .scene_create _ => some .scene
  | _ => none

/-- Stage a call destroys, for the calls that destroy one. -/
def destroys : Call → Option Stage
  | .window_shutDown _ => some .window
  | .vkDestroyInstance _ => some .vk_instance
  | .vkDestroyDebugReportCallbackEXT _ _ => some .debug_hook
  | .device_shutDown _ => some .device
  | .swap_chain_shutDown _ => some .presentation_chain
  | .render_pass_shutDown => some .render_target_layout
  | .vkDestroyFramebuffer _ _ => some .frame_buffers
  | .vkDestroySemaphore _ _ => some .synchronization
  | .scene_shutDown => some .scene
  | _ => none

/-- Calls that destroy, shut down or free something. -/
def is_teardown : Call → Bool
  | .window_shutDown _ => true
  | .window_delete => true
  | .vkDestroyInstance _ => true
  | .vkDestroyDebugReportCallbackEXT _ _ => true
  | .device_shutDown _ => true
  | .device_delete _ => true
  | .swap_chain_shutDown _ => true
  | .swap_chain_delete => true
  | .render_pass_shutDown => true
  | .render_pass_delete => true
  | .vkDestroyFramebuffer _ _ => true
  | .vkDestroySemaphore _ _ => true
  | .scene_shutDown => true
  | _ => false

/-- Calls `destroyDebugReportCallbackEXT` makes. -/
def debug_teardown (env : Env) (inst callback : Handle) : List Call :=
  if env.debug then
    .vkGetInstanceProcAddr inst "vkDestroyDebugReportCallbackEXT" ::
      (if env.debug_report_present then [.vkDestroyDebugReportCallbackEXT inst callback] else [])
  else []

/-- Calls `shutDown` makes on a renderer whose device is `dev`. -/
def teardown (env : Env) (w : VulkanRenderer) (dev : Adapter) : List Call :=
  [.vkDeviceWaitIdle dev, .vkDestroySemaphore dev w.image_ready_semaphore_,
    .vkDestroySemaphore dev w.rendering_complete_semaphore_, .scene_shutDown,
    .render_pass_shutDown, .render_pass_delete] ++
  (w.frame_buffers_.map (fun frame_buffer => Call.vkDestroyFramebuffer dev frame_buffer) ++
  ([.swap_chain_shutDown dev, .swap_chain_delete, .device_shutDown dev, .device_delete dev,
    .window_shutDown w.instance_, .window_delete] ++
  (debug_teardown env w.instance_ w.debug_callback_ ++ [.vkDestroyInstance w.instance_])))

/-- Calls that record one command buffer against one frame buffer. -/
def recording (extent : VkExtent2D) (p : Handle × Handle) : List Call :=
  [.vkBeginCommandBuffer p.1 .VK_COMMAND_BUFFER_USAGE_SIMULTANEOUS_USE_BIT,
    .render_pass_beginRenderPass p.1 .VK_SUBPASS_CONTENTS_INLINE p.2 extent,
    .scene_render p.1,
    .render_pass_endRenderPass p.1,
    .vkEndCommandBuffer p.1]

/-- The allocation call `recordCommandBuffers` makes on a renderer whose device is `dev`. -/
def allocation (w : VulkanRenderer) (dev : Adapter) : Call :=
  .vkAllocateCommandBuffers dev "graphics" .VK_COMMAND_BUFFER_LEVEL_PRIMARY
    w.frame_buffers_.length (List.range' w.issued w.frame_buffers_.length)

/-- Command buffer a resource is, if it is one. -/
def command_buffer_of : Resource → Option Handle
  | .command_buffer _ cb => some cb
  | _ => none

/-- Command buffers allocated and not freed after the calls. -/
def live_command_buffers (fails : Call → Bool) (calls : List Call) : List Handle :=
  (live fails calls).filterMap command_buffer_of

/-- The sample renderer after `create` and one `recordCommandBuffers`. -/
def recorded_renderer : VulkanRenderer :=
  (recordCommandBuffers sample_env (create sample_env blank_renderer).st).st

/-- Calls that create and destroy nothing. -/
def Inert (c : Call) : Prop := acquires c = [] ∧ ∀ r, releases c r = false

/-- The sample environment with the surface gone out of date. -/
def out_of_date_env : Env := { sample_env with acquire := .out_of_date }

/-- Calls of a successful `createVulkanInstance` that creates the instance `inst`. -/
def instance_calls (env : Env) (inst : Handle) : List Call :=
  [.vkEnumerateInstanceLayerProperties false, .vkEnumerateInstanceLayerProperties true,
    .vkEnumerateInstanceExtensionProperties false, .vkEnumerateInstanceExtensionProperties true,
    .vkCreateInstance (getRequiredExtensions env)
      (if env.debug then env.used_validation_layers_ else []) inst]

/-- Calls of a successful `setupDebugCallback` that creates the callback `callback`. -/
def debug_calls (env : Env) (inst callback : Handle) : List Call :=
  if env.debug then
    [.vkGetInstanceProcAddr inst "vkCreateDebugReportCallbackEXT",
      .vkCreateDebugReportCallbackEXT inst callback]
  else []

/-- Calls of a successful frame buffer loop: `m` frame buffers on the color views
from `k` on, with the handles from `h` on. -/
def frame_buffer_calls (dev : Adapter) (extent : VkExtent2D) : Nat → Handle → Nat → List Call
  | _, _, 0 => []
  | k, h, m + 1 =>
    .vkCreateFramebuffer dev k extent h :: frame_buffer_calls dev extent (k + 1) (h + 1) m

/-- The part of `create.body` from `createVulkanDevices` on. -/
def create.tail (env : Env) : Act Unit := do
  createVulkanDevices env
  emit .VulkanSwapChain_new
  let w ← get
  let dev ← physical_device w
  collab env (.swap_chain_create dev)
  modify fun w => { w with swap_chain_ := ⟨env.color_image_views, env.extent⟩ }
  emit .VulkanRenderPass_new
  collab env (.render_pass_create dev)
  createFrameBuffers env
  let image_ready ← createVulkanSemaphore env dev
  modify fun w => { w with image_ready_semaphore_ := image_ready }
  let rendering_complete ← createVulkanSemaphore env dev
  modify fun w => { w with rendering_complete_semaphore_ := rendering_complete }
  emit .Scene_new
  collab env (.scene_create dev)

/-- Calls of a successful `create.tail` from `v` that rejects the adapters `pre` and
retains `a`. -/
def tail_calls (env : Env) (v : VulkanRenderer) (pre : List Adapter) (a : Adapter) : List Call :=
  enumerated v.instance_ ++
  ((pre.flatMap rejected ++ accepted a) ++
  ([.VulkanSwapChain_new, .swap_chain_create a, .VulkanRenderPass_new, .render_pass_create a] ++
  (frame_buffer_calls a env.extent 0 v.issued env.color_image_views ++
  [.createVulkanSemaphore a (v.issued + env.color_image_views),
    .createVulkanSemaphore a (v.issued + env.color_image_views + 1),
    .Scene_new, .scene_create a])))

/-- Fields after a successful `create.tail` from `v` that retains `a`. -/
def tail_created (env : Env) (v : VulkanRenderer) (a : Adapter) : VulkanRenderer :=
  { v with
    physical_device_ := some a
    surface_settings := a :: v.surface_settings
    swap_chain_ := ⟨env.color_image_views, env.extent⟩
    frame_buffers_ := List.range' v.issued env.color_image_views
    image_ready_semaphore_ := v.issued + env.color_image_views
    rendering_complete_semaphore_ := v.issued + env.color_image_views + 1
    issued := v.issued + env.color_image_views + 2 }

/-- Number of handles `setupDebugCallback` takes: one in a debug build. -/
def debug_handles (env : Env) : Nat := if env.debug then 1 else 0

/-- Calls of a successful `create` from `w` that rejects the adapters `pre` and retains
`a`. -/
def create_calls (env : Env) (w : VulkanRenderer) (pre : List Adapter) (a : Adapter) :
    List Call :=
  [.GLFWWindow_new, .window_create] ++
  (instance_calls env w.issued ++
  ([.window_createSurface w.issued] ++
  (debug_calls env w.issued (w.issued + 1) ++
  tail_calls env
    { w with instance_ := w.issued, issued := w.issued + 1 + debug_handles env } pre a)))

/-- Fields after a successful `create` from `w` that retains `a`. -/
def created (env : Env) (w : VulkanRenderer) (a : Adapter) : VulkanRenderer :=
  tail_created env
    { w with instance_ := w.issued
             debug_callback_ := if env.debug then w.issued + 1 else w.debug_callback_
             issued := w.issued + 1 + debug_handles env } a

/-- Stages a successful `create` builds, in order. -/
def build_order (env : Env) : List Stage :=
  [.window, .vk_instance] ++ ((if env.debug then [.debug_hook] else []) ++
    ([.device, .presentation_chain, .render_target_layout] ++
      (List.replicate env.color_image_views .frame_buffers ++
        [.synchronization, .synchronization, .scene])))

/-- Semaphore a call creates, if it creates one. -/
def semaphore_created : Call → Option Handle
  | .createVulkanSemaphore _ semaphore => some semaphore
  | _ => none

/-- The sample environment with a swap chain that cannot be created. -/
def no_swap_chain_env : Env :=
  { sample_env with fails := fun c => c == .swap_chain_create 8 }

/-- The sample environment with no adapter to enumerate. -/
def no_adapter_env : Env := { sample_env with physical_devices := [] }

/-- Calls of `create` from `w` up to the device enumeration, when none of them fails. -/
def prelude_calls (env : Env) (w : VulkanRenderer) : List Call :=
  [.GLFWWindow_new, .window_create] ++
  (instance_calls env w.issued ++
  ([.window_createSurface w.issued] ++ debug_calls env w.issued (w.issued + 1)))

/-- Fields when `create` from `w` reaches the device enumeration. -/
def prelude_state (env : Env) (w : VulkanRenderer) : VulkanRenderer :=
  { w with instance_ := w.issued
           debug_callback_ := if env.debug then w.issued + 1 else w.debug_callback_
           issued := w.issued + 1 + debug_handles env }

/-- Whether a call is a device enumeration. -/
def is_device_enumeration : Call → Bool
  | .vkEnumeratePhysicalDevices _ _ => true
  | _ => false

/-- Calls whose failure the renderer observes: the C API calls it wraps in
`VV_CHECK_SUCCESS` and the member functions of its collaborators that report failure
by throwing. -/
def is_checked : Call → Bool
  | .window_create => true
  | .window_createSurface _ => true
  | .vkEnumerateInstanceLayerProperties _ => true
  | .vkEnumerateInstanceExtensionProperties _ => true
  | .vkCreateInstance _ _ _ => true
  | .vkCreateDebugReportCallbackEXT _ _ => true
  | .device_create _ => true
  | .device_createLogicalDevice _ => true
  | .swap_chain_create _ => true
  | .swap_chain_queuePresent _ _ _ => true
  | .render_pass_create _ => true
  | .vkCreateFramebuffer _ _ _ _ => true
  | .createVulkanSemaphore _ _ => true
  | .scene_create _ => true
  | .scene_allocateSceneDescriptorSets => true
  | .vkAllocateCommandBuffers _ _ _ _ _ => true
  | .vkBeginCommandBuffer _ _ => true
  | .vkEndCommandBuffer _ => true
  | .vkQueueSubmit _ _ => true
  | _ => false

/-- Calls of which no checked one failed. -/
def Quiet (env : Env) (cs : List Call) : Prop :=
  ∀ c ∈ cs, is_checked c = true → env.fails c = false

/-- An outcome that follows a plan of stages: the stages its calls build are an
initial part of the plan, all of it when the outcome is a success; and no checked
call failed, except possibly the last call made when the outcome is a failure. -/
structure Staged {α : Type} (env : Env) (o : Out α) (plan : List Stage) : Prop where
  initial : o.calls.filterMap builds <+: plan
  complete : ∀ a, o.res = .ok a → o.calls.filterMap builds = plan
  clean : Quiet env o.calls.dropLast
  clean_ok : ∀ a, o.res = .ok a → Quiet env o.calls

/-! ## Instance creation: layers and extensions by name -/

/-- Whether a call is a `vkCreateInstance`. -/
def is_instance_creation : Call → Bool
  | .vkCreateInstance _ _ _ => true
  | _ => false

/-- The sample environment with names: one validation layer requested and installed,
two window extensions and the debug report extension required and offered. -/
def named_env : Env :=
  { sample_env with
    used_validation_layers_ := ["VK_LAYER_LUNARG_standard_validation"]
    used_instance_extensions_ := ["VK_EXT_debug_report"]
    glfw_extensions := ["VK_KHR_surface", "VK_KHR_xcb_surface"]
    available_layers := ["VK_LAYER_LUNARG_api_dump", "VK_LAYER_LUNARG_standard_validation"]
    available_extensions :=
      ["VK_KHR_xcb_surface", "VK_EXT_debug_report", "VK_KHR_display", "VK_KHR_surface"] }

/-- The named environment on a system without the debug report extension. -/
def no_debug_report_env : Env :=
  { named_env with available_extensions := ["VK_KHR_xcb_surface", "VK_KHR_surface"] }

/-! ## Settings.cpp: the configuration singleton -/

/-- Fields of `Settings` that `Settings.cpp` reads or writes.  The class is declared in
`Settings.h`; `int` fields are only stored and returned, never computed with. -/
structure Settings where
  default_ : Bool
  window_width_ : Int
  window_height_ : Int
  application_name_ : String
  engine_name_ : String
  graphics_required_ : Bool
  compute_required_ : Bool
  on_screen_rendering_required_ : Bool
  deriving DecidableEq, Repr

/-- Embeds `Settings::setDefault`. -/
def Settings.setDefault (this : Settings) : Settings :=
  { this with
    default_ := true
    window_width_ := 1920
    window_height_ := 1080
    application_name_ := "VirtualVistaVulkan"
    engine_name_ := "VirtualVista"
    graphics_required_ := true
    compute_required_ := false
    on_screen_rendering_required_ := true }

/-- Embeds `Settings::getWindowWidth`. -/
def Settings.getWindowWidth (this : Settings) : Int := this.window_width_

/-- Embeds `Settings::getWindowHeight`. -/
def Settings.getWindowHeight (this : Settings) : Int := this.window_height_

/-- Embeds `Settings::getApplicationName`. -/
def Settings.getApplicationName (this : Settings) : String := this.application_name_

/-- Embeds `Settings::getEngineName`. -/
def Settings.getEngineName (this : Settings) : String := this.engine_name_

/-- Embeds `Settings::isGraphicsRequired`. -/
def Settings.isGraphicsRequired (this : Settings) : Bool := this.graphics_required_

/-- Embeds `Settings::isComputeRequired`. -/
def Settings.isComputeRequired (this : Settings) : Bool := this.compute_required_

/-- Embeds `Settings::isOnScreenRenderingRequired`. -/
def Settings.isOnScreenRenderingRequired (this : Settings) : Bool :=
  this.on_screen_rendering_required_

/-- Embeds `Settings::setWindowWidth`. -/
def Settings.setWindowWidth (width : Int) (this : Settings) : Settings :=
  { this with window_width_ := width }

/-- Embeds `Settings::setWindowHeight`. -/
def Settings.setWindowHeight (height : Int) (this : Settings) : Settings :=
  { this with window_height_ := height }

/-- The memory `Settings.cpp` works on: the static pointer `Settings::instance_`
(`none` is the null pointer) and the `Settings` objects made by `new`, an object's
address being its position. -/
structure Heap where
  instance_ : Option Nat
  objects : List Settings
  deriving DecidableEq, Repr

/-- The object a pointer points to, if it points to one. -/
def Heap.load (m : Heap) (p : Nat) : Option Settings := m.objects[p]?

/-- A call `p->f(...)` of a member function that returns nothing; calling through a
pointer to no object has no defined outcome. -/
def Heap.through (m : Heap) (p : Nat) (f : Settings → Settings) : Option Heap :=
  match m.objects[p]? with
  | some this => some { m with objects := m.objects.set p (f this) }
  | none => none

/-- Embeds `Settings::inst`.  `constructed` is the object `new Settings` yields before
`setDefault` runs on it: the constructor is declared in `Settings.h`. -/
def Settings.inst (constructed : Settings) (m : Heap) : Option (Nat × Heap) :=
  match m.instance_ with
  | none => do
    let m : Heap := { instance_ := some m.objects.length, objects := m.objects ++ [constructed] }
    let p ← m.instance_
    let m ← m.through p Settings.setDefault
    m.instance_.map fun p => (p, m)
  | some p => some (p, m)

/-- The statement `Settings::inst()->f(...)` for a member function that returns nothing. -/
def Settings.via_inst (constructed : Settings) (f : Settings → Settings) (m : Heap) :
    Option Heap :=
  match Settings.inst constructed m with
  | some (p, m) => m.through p f
  | none => none

/-- The expression `Settings::inst()->g()` for a member function that returns a value. -/
def Settings.read_via_inst {α : Type} (constructed : Settings) (g : Settings → α) (m : Heap) :
    Option (α × Heap) :=
  match Settings.inst constructed m with
  | some (p, m) => (m.load p).map fun this => (g this, m)
  | none => none

/-- The default configuration, field by field: window 1920x1080, the two names, graphics
and on-screen rendering required, compute not. -/
def default_configuration : Settings :=
  { default_ := true
    window_width_ := 1920
    window_height_ := 1080
    application_name_ := "VirtualVistaVulkan"
    engine_name_ := "VirtualVista"
    graphics_required_ := true
    compute_required_ := false
    on_screen_rendering_required_ := true }

/-- A process that has not called `Settings::inst` yet. -/
def start_heap : Heap := { instance_ := none, objects := [] }

/-- Some content of a `Settings` object before `setDefault`. -/
def raw_settings : Settings :=
  { default_ := false
    window_width_ := -7
    window_height_ := 0
    application_name_ := ""
    engine_name_ := "?"
    graphics_required_ := false
    compute_required_ := true
    on_screen_rendering_required_ := false }

/-- A first `Settings::inst()`, then
`Settings::inst()->setWindowWidth(w)` and `Settings::inst()->setWindowHeight(h)`, then
the object a later `Settings::inst()` points to. -/
def Settings.resized (constructed : Settings) (w h : Int) (m : Heap) :
    Option (Settings × Heap) := do
  let (_, m) ← Settings.inst constructed m
  let m ← Settings.via_inst constructed (Settings.setWindowWidth w) m
  let m ← Settings.via_inst constructed (Settings.setWindowHeight h) m
  Settings.read_via_inst constructed id m

/-! ## Shader.cpp: descriptor reflection -/

/-- Shader stages a reflection is run for. -/
inductive VkShaderStageFlagBits
  | VK_SHADER_STAGE_VERTEX_BIT
  | VK_SHADER_STAGE_FRAGMENT_BIT
  deriving DecidableEq, Repr

/-- Descriptor types `reflectDescriptorTypes` assigns. -/
inductive VkDescriptorType
  | VK_DESCRIPTOR_TYPE_COMBINED_IMAGE_SAMPLER
  | VK_DESCRIPTOR_TYPE_UNIFORM_BUFFER
  deriving DecidableEq, Repr

/-- A push constant range as the shader keeps it. -/
structure VkPushConstantRange where
  stageFlags : VkShaderStageFlagBits
  offset : Nat
  size : Nat
  deriving DecidableEq, Repr

/-- The `DescriptorInfo` of `Shader.h`, with its members in the order the aggregate
initialisers of `reflectDescriptorTypes` give them; `binding` is the member the sort
compares. -/
structure DescriptorInfo where
  binding : Nat
  name : String
  shader_stage : VkShaderStageFlagBits
  type : VkDescriptorType
  deriving DecidableEq, Repr

/-- What SPIRV-Cross answers for one resource id: the descriptor set and binding
decorations and the name. -/
structure spirv_cross.Resource where
  set : Nat
  binding : Nat
  name : String
  deriving DecidableEq, Repr

/-- One entry of `get_active_buffer_ranges`. -/
structure spirv_cross.BufferRange where
  offset : Nat
  range : Nat
  deriving DecidableEq, Repr

/-- What `get_shader_resources` reports, as far as `reflectDescriptorTypes` reads it; a
push constant buffer is given by its active ranges. -/
structure spirv_cross.ShaderResources where
  push_constant_buffers : List (List spirv_cross.BufferRange)
  uniform_buffers : List spirv_cross.Resource
  sampled_images : List spirv_cross.Resource
  deriving DecidableEq, Repr

/-- Fields of `Shader` that `reflectDescriptorTypes` reads or writes.
`_accepted_material_descriptors` is declared, with its content, in `Shader.h`. -/
structure Shader where
  uses_environmental_lighting : Bool
  push_constant_ranges : List VkPushConstantRange
  material_descriptor_orderings : List DescriptorInfo
  _accepted_material_descriptors : List String
  deriving DecidableEq, Repr

/-- Outcome of a member function of `Shader`: the message of the `std::runtime_error`
thrown, if any, and the fields afterwards. -/
structure Reflected where
  res : Except String Unit
  shader : Shader

/-- A range-based `for` whose body either throws or goes on with changed fields. -/
def Shader.forEach {α : Type} (body : α → Shader → Except String Shader) :
    List α → Shader → Reflected
  | [], this => ⟨.ok (), this⟩
  | resource :: rest, this =>
    match body resource this with
    | .ok this => Shader.forEach body rest this
    | .error what => ⟨.error what, this⟩

/-- The loops over `resources.push_constant_buffers` and the ranges of each. -/
def Shader.reflectDescriptorTypes.push_constants (shader_stage : VkShaderStageFlagBits)
    (push_constant_buffers : List (List spirv_cross.BufferRange)) (this : Shader) : Shader :=
  push_constant_buffers.foldl (fun this ranges =>
    ranges.foldl (fun this r =>
      let push_constant_range : VkPushConstantRange :=
        { offset := r.offset, size := r.range, stageFlags := shader_stage }
      { this with push_constant_ranges := this.push_constant_ranges ++ [push_constant_range] })
      this) this

/-- Body of the loop over `resources.uniform_buffers`. -/
def Shader.reflectDescriptorTypes.uniform_buffer (shader_stage : VkShaderStageFlagBits)
    (resource : spirv_cross.Resource) (this : Shader) : Except String Shader :=
  let set := resource.set
  let binding := resource.binding
  let name := resource.name
  let descriptor_info : DescriptorInfo :=
    ⟨binding, name, shader_stage, .VK_DESCRIPTOR_TYPE_UNIFORM_BUFFER⟩
  if set == 0 then
    if name != "lights" then
      .error ("Descriptor set 0 is reserved: " ++ name)
    else .ok this
  else if set == 1 then
    if name == "properties" then
      .ok { this with
        material_descriptor_orderings := this.material_descriptor_orderings ++ [descriptor_info] }
    else
      .error ("Non-standard descriptor found with set 1: " ++ name)
  else if set == 2 then
    .ok this
  else
    .error ("Descriptor with set outside of range found: " ++ name)

/-- Body of the loop over `resources.sampled_images`. -/
def Shader.reflectDescriptorTypes.sampled_image (shader_stage : VkShaderStageFlagBits)
    (resource : spirv_cross.Resource) (this : Shader) : Except String Shader :=
  let set := resource.set
  let binding := resource.binding
  let name := resource.name
  let descriptor_info : DescriptorInfo :=
    ⟨binding, name, shader_stage, .VK_DESCRIPTOR_TYPE_COMBINED_IMAGE_SAMPLER⟩
  if set == 0 then
    if name != "lights" then
      .error ("Descriptor set 0 is reserved: " ++ name)
    else .ok this
  else if set == 1 then
    if this._accepted_material_descriptors.contains name then
      .ok { this with
        material_descriptor_orderings := this.material_descriptor_orderings ++ [descriptor_info] }
    else
      .error ("Non-standard descriptor found with set 1: " ++ name)
  else if set == 2 then
    if name == "brdf_lut" || name == "d_irradiance_map" || name == "s_irradiance_map" then
      .ok { this with uses_environmental_lighting := true }
    else .ok this
  else
    .error ("Descriptor with set outside of range found: " ++ name)

/-- The comparison the sort is given: `l.binding < r.binding`. -/
def Shader.reflectDescriptorTypes.comp (l r : DescriptorInfo) : Bool :=
  l.binding < r.binding

/-- Embeds `Shader::reflectDescriptorTypes`.  `resources` is what SPIRV-Cross reports
for the binary and `std_sort` the `std::sort` of the standard library in use. -/
def Shader.reflectDescriptorTypes
    (std_sort : (DescriptorInfo → DescriptorInfo → Bool) → List DescriptorInfo →
      List DescriptorInfo)
    (resources : spirv_cross.ShaderResources) (shader_stage : VkShaderStageFlagBits) (this : Shader) :
    Reflected :=
  let this := Shader.reflectDescriptorTypes.push_constants shader_stage
    resources.push_constant_buffers this
  match Shader.forEach (Shader.reflectDescriptorTypes.uniform_buffer shader_stage)
      resources.uniform_buffers this with
  | ⟨.error what, this⟩ => ⟨.error what, this⟩
  | ⟨.ok (), this⟩ =>
    match Shader.forEach (Shader.reflectDescriptorTypes.sampled_image shader_stage)
        resources.sampled_images this with
    | ⟨.error what, this⟩ => ⟨.error what, this⟩
    | ⟨.ok (), this⟩ =>
      ⟨.ok (), { this with
        material_descriptor_orderings :=
          std_sort Shader.reflectDescriptorTypes.comp this.material_descriptor_orderings }⟩

/-- What the C++ standard promises of `std::sort(first, last, comp)`: afterwards the
range holds the elements it held, rearranged, and no element is less (by `comp`) than
one before it.  The order of elements neither of which is less is not specified. -/
def sorts {α : Type} (std_sort : (α → α → Bool) → List α → List α) (comp : α → α → Bool) :
    Prop :=
  ∀ v : List α, (std_sort comp v).Perm v ∧
    (std_sort comp v).Pairwise (fun l r => comp r l = false)

/-- An insertion sort, as one `std::sort`. -/
def insertion_sort {α : Type} (comp : α → α → Bool) (v : List α) : List α :=
  v.insertionSort (fun l r => comp r l = false)

/-- A reflection as a fragment shader of the engine gives it. -/
def sample_resources : spirv_cross.ShaderResources :=
  { push_constant_buffers := [[⟨0, 64⟩]]
    uniform_buffers := [⟨0, 0, "lights"⟩, ⟨1, 0, "properties"⟩, ⟨2, 0, "scene"⟩]
    sampled_images :=
      [⟨1, 2, "normal_map"⟩, ⟨2, 1, "brdf_lut"⟩, ⟨1, 1, "albedo_map"⟩] }

/-- A shader before reflection, with two accepted material descriptors. -/
def sample_shader : Shader :=
  { uses_environmental_lighting := false
    push_constant_ranges := []
    material_descriptor_orderings := []
    _accepted_material_descriptors := ["albedo_map", "normal_map"] }

/-- The descriptors pushed for the resources of descriptor set 1 in a list, in the
order of the list. -/
def material_descriptors (shader_stage : VkShaderStageFlagBits) (type : VkDescriptorType)
    (resources : List spirv_cross.Resource) : List DescriptorInfo :=
  (resources.filter (fun r => r.set == 1)).map fun r =>
    ⟨r.binding, r.name, shader_stage, type⟩

/-- Whether a sampled image is one of the environment maps of descriptor set 2. -/
def is_environment_map (r : spirv_cross.Resource) : Bool :=
  r.set == 2 && (r.name == "brdf_lut" || r.name == "d_irradiance_map" ||
    r.name == "s_irradiance_map")

/-- The sample reflection with one more uniform buffer, in descriptor set 3. -/
def out_of_range_resources : spirv_cross.ShaderResources :=
  { sample_resources with
    uniform_buffers := sample_resources.uniform_buffers ++ [⟨3, 0, "camera"⟩] }

/-! ## Rebuilding: shut down, create again, record again -/

open Act VulkanRenderer

section steps

variable {α β : Type}

@[simp] theorem Out.after_res (cs : List Call) (o : Out α) : (o.after cs).res = o.res := rfl

@[simp] theorem Out.after_st (cs : List Call) (o : Out α) : (o.after cs).st = o.st := rfl

@[simp] theorem Out.after_calls (cs : List Call) (o : Out α) :
    (o.after cs).calls = cs ++ o.calls := rfl

@[simp] theorem Out.after_nil (o : Out α) : o.after [] = o := rfl

@[simp] theorem bind_def (m : Act α) (f : α → Act β) : (m >>= f) = andThen m f := rfl

@[simp] theorem pure_def (a : α) : (Pure.pure a : Act α) = ret a := rfl

@[simp] theorem ret_apply (a : α) (w : VulkanRenderer) : ret a w = ⟨.ok a, w, []⟩ := rfl

@[simp] theorem throw_apply (e : Failure) (w : VulkanRenderer) :
    (Act.throw e : Act α) w = ⟨.error e, w, []⟩ := rfl

@[simp] theorem emit_apply (c : Call) (w : VulkanRenderer) : emit c w = ⟨.ok (), w, [c]⟩ := rfl

@[simp] theorem collab_apply (env : Env) (c : Call) (w : VulkanRenderer) :
    collab env c w = ⟨if env.fails c then .error .runtime_error else .ok (), w, [c]⟩ := rfl

@[simp] theorem modify_apply (g : VulkanRenderer → VulkanRenderer) (w : VulkanRenderer) :
    modify g w = ⟨.ok (), g w, []⟩ := rfl

theorem andThen_apply (m : Act α) (f : α → Act β) (w : VulkanRenderer) :
    andThen m f w = match (m w).res with
      | .ok a => (f a (m w).st).after (m w).calls
      | .error e => ⟨.error e, (m w).st, (m w).calls⟩ := rfl

@[simp] theorem andThen_ret (a : α) (f : α → Act β) (w : VulkanRenderer) :
    andThen (ret a) f w = f a w := rfl

@[simp] theorem andThen_throw (e : Failure) (f : α → Act β) (w : VulkanRenderer) :
    andThen (Act.throw e) f w = ⟨.error e, w, []⟩ := rfl

@[simp] theorem andThen_get (f : VulkanRenderer → Act β) (w : VulkanRenderer) :
    andThen get f w = f w w := rfl

@[simp] theorem andThen_modify (g : VulkanRenderer → VulkanRenderer) (f : Unit → Act β)
    (w : VulkanRenderer) : andThen (modify g) f w = f () (g w) := rfl

@[simp] theorem andThen_fresh (f : Handle → Act β) (w : VulkanRenderer) :
    andThen fresh f w = f w.issued { w with issued := w.issued + 1 } := rfl

@[simp] theorem andThen_emit (c : Call) (f : Unit → Act β) (w : VulkanRenderer) :
    andThen (emit c) f w = (f () w).after [c] := rfl

@[simp] theorem andThen_vk (env : Env) (c : Call) (f : VkResult → Act β) (w : VulkanRenderer) :
    andThen (vk env c) f w =
      (f (if env.fails c then .VK_ERROR_INITIALIZATION_FAILED else .VK_SUCCESS) w).after [c] := rfl

@[simp] theorem andThen_collab (env : Env) (c : Call) (f : Unit → Act β) (w : VulkanRenderer) :
    andThen (collab env c) f w =
      if env.fails c then ⟨.error .runtime_error, w, [c]⟩ else (f () w).after [c] := by
  by_cases h : env.fails c <;> simp [andThen_apply, h, Out.after]

theorem andThen_assoc {γ : Type} (m : Act α) (f : α → Act β) (g : β → Act γ) :
    andThen (andThen m f) g = andThen m (fun a => andThen (f a) g) := by
  funext w
  simp only [andThen_apply]
  cases h : (m w).res with
  | error e => simp
  | ok a =>
    simp only [Out.after_res, Out.after_st, Out.after_calls]
    cases h2 : (f a (m w).st).res with
    | error e => simp [Out.after]
    | ok b => simp [Out.after]

end steps

theorem Rejects.cons {env : Env} {d : Adapter} {pre : List Adapter}
    (hs : env.isSuitable d = false) (hc : env.fails (.device_create d) = false)
    (h : Rejects env pre) : Rejects env (d :: pre) := by
  intro x hx
  rcases List.mem_cons.mp hx with rfl | hx
  · exact ⟨hs, hc⟩
  · exact h x hx

theorem loop_outcome (env : Env) (ds : List Adapter) (w : VulkanRenderer) :
    LoopOutcome env ds w (createVulkanDevices.loop env ds w) := by
  induction ds generalizing w with
  | nil =>
    have := @LoopOutcome.none_suitable env ([]) w (by intro x hx; simp at hx)
    simpa [createVulkanDevices.loop] using this
  | cons d ds ih =>
    simp only [createVulkanDevices.loop, bind_def, andThen_emit, andThen_modify, andThen_collab]
    by_cases hc : env.fails (.device_create d) = true
    · have := @LoopOutcome.create_threw env (d :: ds) w [] d ds rfl
        (by intro x hx; simp at hx) hc
      simpa [hc, Out.after] using this
    · have hc : env.fails (.device_create d) = false := by simpa using hc
      by_cases hs : env.isSuitable d = true
      · by_cases hl : env.fails (.device_createLogicalDevice d) = true
        · have := @LoopOutcome.logical_threw env (d :: ds) w [] d ds rfl
            (by intro x hx; simp at hx) hs hc hl
          simpa [hc, hs, hl, Out.after, accepted] using this
        · have hl : env.fails (.device_createLogicalDevice d) = false := by simpa using hl
          have := @LoopOutcome.found env (d :: ds) w [] d ds rfl
            (by intro x hx; simp at hx) hs hc hl
          simpa [hc, hs, hl, Out.after, accepted] using this
      · have hs : env.isSuitable d = false := by simpa using hs
        simp only [hc, hs, Bool.false_eq_true, if_false, andThen_emit, andThen_modify]
        have h := ih { w with physical_device_ := none }
        generalize ho : createVulkanDevices.loop env ds { w with physical_device_ := none } = o at h ⊢
        cases h with
        | found pre a post hds hpre hs' hc' hl' =>
          have := @LoopOutcome.found env (d :: ds) w (d :: pre) a post (by simp [hds])
            (hpre.cons hs hc) hs' hc' hl'
          simpa [Out.after, rejected] using this
        | none_suitable hpre =>
          have := @LoopOutcome.none_suitable env (d :: ds) w (hpre.cons hs hc)
          by_cases hds : ds = [] <;> simpa [Out.after, rejected, hds] using this
        | create_threw pre a post hds hpre hc' =>
          have := @LoopOutcome.create_threw env (d :: ds) w (d :: pre) a post (by simp [hds])
            (hpre.cons hs hc) hc'
          simpa [Out.after, rejected] using this
        | logical_threw pre a post hds hpre hs' hc' hl' =>
          have := @LoopOutcome.logical_threw env (d :: ds) w (d :: pre) a post (by simp [hds])
            (hpre.cons hs hc) hs' hc' hl'
          simpa [Out.after, rejected] using this

theorem examined_rejected (pre : List Adapter) :
    (pre.flatMap rejected).filterMap examined = pre := by
  induction pre with
  | nil => rfl
  | cons x xs ih => simpa [List.flatMap_cons, rejected, examined, List.filterMap_append] using ih

theorem logical_rejected (pre : List Adapter) :
    (pre.flatMap rejected).filterMap logical_device_on = [] := by
  induction pre with
  | nil => rfl
  | cons x xs ih =>
    simpa [List.flatMap_cons, rejected, logical_device_on, List.filterMap_append] using ih

theorem createVulkanDevices_outcome (env : Env) (w : VulkanRenderer) :
    DevicesOutcome env w (createVulkanDevices env w) := by
  by_cases hds : env.physical_devices = []
  · have := @DevicesOutcome.no_adapters env w hds
    simpa [createVulkanDevices, VV_ASSERT, hds, Out.after] using this
  · have hlen : env.physical_devices.length ≠ 0 := by simpa using hds
    have hloop := loop_outcome env env.physical_devices w
    simp only [createVulkanDevices, bind_def, andThen_get, andThen_emit, VV_ASSERT, hds, if_false]
    simp only [bne_iff_ne, ne_eq, hlen, not_false_eq_true, decide_True, if_true, andThen_ret,
      andThen_emit]
    rw [andThen_apply]
    generalize createVulkanDevices.loop env env.physical_devices w = o at hloop
    cases hloop with
    | found pre a post h1 hpre hs hc hl =>
      have := @DevicesOutcome.found env w pre a post h1 hpre hs hc hl
      simpa [Out.after, enumerated] using this
    | none_suitable hpre =>
      have := @DevicesOutcome.none_suitable env w hds hpre
      simpa [Out.after, enumerated, hds] using this
    | create_threw pre a post h1 hpre hc =>
      have := @DevicesOutcome.create_threw env w pre a post h1 hpre hc
      simpa [Out.after, enumerated] using this
    | logical_threw pre a post h1 hpre hs hc hl =>
      have := @DevicesOutcome.logical_threw env w pre a post h1 hpre hs hc hl
      simpa [Out.after, enumerated] using this

/-- C1: `createVulkanDevices` is a find-first over the enumerated adapters.  When the
device collaborator does not throw and some adapter is suitable, it succeeds, the
retained `physical_device_` is an adapter `a` that is suitable and preceded in the
enumeration only by unsuitable ones, the adapters examined are exactly those up to
and including `a`, and a logical device is created on `a` alone.  When no adapter is
suitable, the empty enumeration included, it fails with the fatal error. -/
theorem createVulkanDevices_first_suitable (env : Env) (w : VulkanRenderer) :
    ((∀ a, env.fails (.device_create a) = false) →
      (∀ a, env.fails (.device_createLogicalDevice a) = false) →
      (∃ x ∈ env.physical_devices, env.isSuitable x = true) →
      (createVulkanDevices env w).res = .ok () ∧
      ∃ pre a post, env.physical_devices = pre ++ a :: post ∧
        (∀ x ∈ pre, env.isSuitable x = false) ∧ env.isSuitable a = true ∧
        (createVulkanDevices env w).st.physical_device_ = some a ∧
        (createVulkanDevices env w).calls.filterMap examined = pre ++ [a] ∧
        (createVulkanDevices env w).calls.filterMap logical_device_on = [a]) ∧
    ((∀ x ∈ env.physical_devices, env.isSuitable x = false) →
      (createVulkanDevices env w).res = .error .runtime_error) := by
  have h := createVulkanDevices_outcome env w
  generalize createVulkanDevices env w = o at h
  cases h with
  | no_adapters hds =>
    refine ⟨fun _ _ hex => ?_, fun _ => rfl⟩
    obtain ⟨x, hx, _⟩ := hex
    simp [hds] at hx
  | found pre a post hds hpre hs hc hl =>
    refine ⟨fun _ _ _ => ⟨rfl, pre, a, post, hds, fun x hx => (hpre x hx).1, hs, rfl, ?_, ?_⟩,
      fun hall => ?_⟩
    · simp [enumerated, examined, accepted, List.filterMap_append, examined_rejected]
    · simp [enumerated, logical_device_on, accepted, List.filterMap_append, logical_rejected]
    · have := hall a (by simp [hds])
      simp [hs] at this
  | none_suitable hne hpre =>
    refine ⟨fun _ _ hex => ?_, fun _ => rfl⟩
    obtain ⟨x, hx, hsx⟩ := hex
    have := (hpre x hx).1
    simp [hsx] at this
  | create_threw pre a post hds hpre hc =>
    refine ⟨fun hcre _ _ => ?_, fun _ => rfl⟩
    have := hcre a
    simp [hc] at this
  | logical_threw pre a post hds hpre hs hc hl =>
    refine ⟨fun _ hlog _ => ?_, fun _ => rfl⟩
    have := hlog a
    simp [hl] at this

/-- C1 at three adapters of which the second and the third are suitable: the call
succeeds and the second is retained. -/
theorem createVulkanDevices_first_suitable_witness :
    (createVulkanDevices sample_env blank_renderer).res = .ok () ∧
      (createVulkanDevices sample_env blank_renderer).st.physical_device_ = some 8 ∧
      (createVulkanDevices sample_env blank_renderer).calls.filterMap examined = [7, 8] :=
  ⟨((createVulkanDevices_first_suitable sample_env blank_renderer).1 (fun _ => rfl)
      (fun _ => rfl) ⟨8, by decide, rfl⟩).1, by decide, by decide⟩

theorem forEach_emit {α β : Type} (g : α → Call) (xs : List α) (f : Unit → Act β)
    (w : VulkanRenderer) :
    andThen (forEach (fun x => emit (g x)) xs) f w = (f () w).after (xs.map g) := by
  induction xs generalizing f with
  | nil => simp [forEach]
  | cons x xs ih =>
    simp only [forEach, andThen_assoc, andThen_emit, ih]
    simp [Out.after]

theorem destroyDebugReportCallbackEXT_eq (env : Env) (inst callback : Handle)
    (w : VulkanRenderer) {β : Type} (f : Unit → Act β) :
    andThen (destroyDebugReportCallbackEXT env inst callback) f w =
      (f () w).after (debug_teardown env inst callback) := by
  unfold destroyDebugReportCallbackEXT debug_teardown
  by_cases hd : env.debug = true <;> by_cases hp : env.debug_report_present = true <;>
    simp [hd, hp, andThen_assoc, Out.after]

theorem shutDown_eq (env : Env) (w : VulkanRenderer) (dev : Adapter)
    (hdev : w.physical_device_ = some dev) :
    shutDown env w = ⟨.ok (), w, teardown env w dev⟩ := by
  simp only [shutDown, bind_def, andThen_get, physical_device, hdev, andThen_ret, andThen_emit,
    forEach_emit, destroyDebugReportCallbackEXT_eq, emit_apply]
  simp [Out.after, teardown]

theorem shutDown_null (env : Env) (w : VulkanRenderer) (hdev : w.physical_device_ = none) :
    shutDown env w = ⟨.error .undefined_behaviour, w, []⟩ := by
  simp [shutDown, physical_device, hdev]

theorem teardown_filterMap_destroys (env : Env) (w : VulkanRenderer) (dev : Adapter) :
    (teardown env w dev).filterMap destroys =
      [.synchronization, .synchronization, .scene, .render_target_layout] ++
      (List.replicate w.frame_buffers_.length .frame_buffers ++
      ([.presentation_chain, .device, .window] ++
      ((if env.debug && env.debug_report_present then [.debug_hook] else []) ++
      [.vk_instance]))) := by
  have hfb : ∀ l : List Handle,
      (l.map (fun frame_buffer => Call.vkDestroyFramebuffer dev frame_buffer)).filterMap destroys =
        List.replicate l.length Stage.frame_buffers := by
    intro l
    induction l with
    | nil => rfl
    | cons x xs ih => simp [List.replicate_succ, destroys, ih]
  have hdb : (debug_teardown env w.instance_ w.debug_callback_).filterMap destroys =
      if env.debug && env.debug_report_present then [Stage.debug_hook] else [] := by
    unfold debug_teardown
    by_cases hd : env.debug = true <;> by_cases hp : env.debug_report_present = true <;>
      simp [hd, hp, destroys]
  simp only [teardown, List.filterMap_append, hfb, hdb]
  simp [destroys]

/-- C3: in `shutDown` the idle-wait on the logical device comes first.  Whatever the
renderer's fields, every destroying, shutting-down or freeing call `shutDown` makes
has `vkDeviceWaitIdle` on the renderer's device before it; and on a renderer that has
a device the first call of all is that `vkDeviceWaitIdle`. -/
theorem shutDown_waits_for_idle_first (env : Env) (w : VulkanRenderer) :
    (∀ pre c post, (shutDown env w).calls = pre ++ c :: post → is_teardown c = true →
      ∃ dev, w.physical_device_ = some dev ∧ Call.vkDeviceWaitIdle dev ∈ pre) ∧
    (∀ dev, w.physical_device_ = some dev →
      (shutDown env w).calls.head? = some (.vkDeviceWaitIdle dev)) := by
  cases hdev : w.physical_device_ with
  | none =>
    rw [shutDown_null env w hdev]
    refine ⟨fun pre c post h _ => ?_, fun dev h => by simp at h⟩
    simp at h
  | some dev =>
    rw [shutDown_eq env w dev hdev]
    refine ⟨fun pre c post h hc => ⟨dev, rfl, ?_⟩, fun d h => ?_⟩
    · cases pre with
      | nil =>
        simp only [teardown, List.nil_append, List.cons_append, List.cons.injEq] at h
        rw [← h.1] at hc
        simp [is_teardown] at hc
      | cons p ps =>
        simp only [teardown, List.cons_append, List.cons.injEq] at h
        simp [← h.1]
    · simp only [Option.some.injEq] at h
      simp [teardown, h]

/-- C3 on the renderer `create` leaves in the sample environment. -/
theorem shutDown_waits_for_idle_first_witness :
    (shutDown sample_env (create sample_env blank_renderer).st).calls.head? =
      some (.vkDeviceWaitIdle 8) :=
  (shutDown_waits_for_idle_first sample_env (create sample_env blank_renderer).st).2 8
    (by decide)

/-- C4, refuted as stated: in the sample environment the order in which `shutDown`
destroys the stages is not the reverse of the order in which `create` built them. -/
theorem shutDown_order_not_reverse_of_create :
    (shutDown sample_env (create sample_env blank_renderer).st).calls.filterMap destroys ≠
      ((create sample_env blank_renderer).calls.filterMap builds).reverse := by
  decide

/-- C4, amended: on a renderer that has a device, `shutDown` destroys in this order:
the two semaphores, the scene, the render pass, every frame buffer, the swap chain,
the device, the window, the debug callback (in a debug build that has the debug
report entry points), the instance. -/
theorem shutDown_destroy_order (env : Env) (w : VulkanRenderer) (dev : Adapter)
    (hdev : w.physical_device_ = some dev) :
    (shutDown env w).calls.filterMap destroys =
      [.synchronization, .synchronization, .scene, .render_target_layout] ++
      (List.replicate w.frame_buffers_.length .frame_buffers ++
      ([.presentation_chain, .device, .window] ++
      ((if env.debug && env.debug_report_present then [.debug_hook] else []) ++
      [.vk_instance]))) := by
  rw [shutDown_eq env w dev hdev]
  exact teardown_filterMap_destroys env w dev

/-- C4, amended, on the renderer `create` leaves in the sample environment, next to
the order `create` built in. -/
theorem shutDown_destroy_order_witness :
    (shutDown sample_env (create sample_env blank_renderer).st).calls.filterMap destroys =
      [.synchronization, .synchronization, .scene, .render_target_layout, .frame_buffers,
        .frame_buffers, .presentation_chain, .device, .window, .debug_hook, .vk_instance] ∧
    (create sample_env blank_renderer).calls.filterMap builds =
      [.window, .vk_instance, .debug_hook, .device, .presentation_chain, .render_target_layout,
        .frame_buffers, .frame_buffers, .synchronization, .synchronization, .scene] :=
  ⟨(shutDown_destroy_order sample_env (create sample_env blank_renderer).st 8 (by decide)).trans
    (by decide), by decide⟩

/-- C2: one `run` on a renderer with a device, when acquisition yields image `i`,
`command_buffers_[i]` exists and the submit is accepted, makes exactly these calls in
this order: the window poll; the scene's uniform update with the swap chain extent
and `delta_time`; the acquisition, signalling the image-ready semaphore; one submit
to the graphics queue with the single wait semaphore image-ready at the
color-attachment-output stage, the single command buffer `command_buffers_[i]` and
the single signal semaphore rendering-complete; the present of image `i`, waiting on
rendering-complete.  The renderer's fields are left as they were. -/
theorem run_frame_order (env : Env) (w : VulkanRenderer) (delta_time i : Nat)
    (dev : Adapter) (cb : Handle)
    (hdev : w.physical_device_ = some dev)
    (hacq : env.acquire = .image i)
    (hcb : w.command_buffers_[i]? = some cb)
    (hsubmit : env.fails (.vkQueueSubmit dev
      { pWaitSemaphores := [w.image_ready_semaphore_]
        pWaitDstStageMask := [.VK_PIPELINE_STAGE_COLOR_ATTACHMENT_OUTPUT_BIT]
        pCommandBuffers := [cb]
        pSignalSemaphores := [w.rendering_complete_semaphore_] }) = false) :
    (run env delta_time w).calls =
      [.window_run,
        .scene_updateUniformData w.swap_chain_.extent delta_time,
        .swap_chain_acquireNextImage dev w.image_ready_semaphore_,
        .vkQueueSubmit dev
          { pWaitSemaphores := [w.image_ready_semaphore_]
            pWaitDstStageMask := [.VK_PIPELINE_STAGE_COLOR_ATTACHMENT_OUTPUT_BIT]
            pCommandBuffers := [cb]
            pSignalSemaphores := [w.rendering_complete_semaphore_] },
        .swap_chain_queuePresent dev i w.rendering_complete_semaphore_] ∧
    (run env delta_time w).st = w := by
  simp [run, physical_device, hdev, acquireNextImage, hacq, at_index, hcb, VV_CHECK_SUCCESS,
    hsubmit, andThen_assoc, Out.after]

theorem resize_length (v : List Handle) (n : Nat) : (resize v n).length = n := by
  simp [resize]
  omega

theorem getElem?_append_cons_length {α : Type} (l : List α) (a : α) (r : List α) :
    (l ++ a :: r)[l.length]? = some a := by
  rw [List.getElem?_append_right (Nat.le_refl _)]
  simp

theorem recordCommandBuffers_body_ok (env : Env) (w : VulkanRenderer) (i : Nat)
    (cb fb : Handle) (hcb : w.command_buffers_[i]? = some cb)
    (hfb : w.frame_buffers_[i]? = some fb)
    (hok : (recordCommandBuffers.body env i w).res = .ok ()) :
    recordCommandBuffers.body env i w = ⟨.ok (), w, recording w.swap_chain_.extent (cb, fb)⟩ := by
  revert hok
  simp only [recordCommandBuffers.body, bind_def, andThen_get, at_index, hcb, hfb, andThen_ret,
    andThen_assoc, andThen_vk, VV_CHECK_SUCCESS]
  by_cases h1 : env.fails (.vkBeginCommandBuffer cb .VK_COMMAND_BUFFER_USAGE_SIMULTANEOUS_USE_BIT) = true
  · simp [h1, Out.after]
  · by_cases h2 : env.fails (.vkEndCommandBuffer cb) = true
    · simp [h1, h2, Out.after]
    · simp [h1, h2, Out.after, recording]

theorem recordCommandBuffers_loop_ok (env : Env) (cs fs : List Handle) :
    ∀ (pc pf : List Handle) (w : VulkanRenderer), pc.length = pf.length →
      cs.length = fs.length →
      w.command_buffers_ = pc ++ cs → w.frame_buffers_ = pf ++ fs →
      (forEach (recordCommandBuffers.body env) (List.range' pc.length cs.length) w).res = .ok () →
      forEach (recordCommandBuffers.body env) (List.range' pc.length cs.length) w =
        ⟨.ok (), w, (cs.zip fs).flatMap (recording w.swap_chain_.extent)⟩ := by
  induction cs generalizing fs with
  | nil =>
    intro pc pf w _ _ _ _ _
    simp [forEach]
  | cons c cs ih =>
    intro pc pf w hlen hcf hc hf hok
    cases fs with
    | nil => simp at hcf
    | cons f fs =>
      have hcb : w.command_buffers_[pc.length]? = some c := by
        rw [hc]; exact getElem?_append_cons_length pc c cs
      have hfb : w.frame_buffers_[pc.length]? = some f := by
        rw [hf, hlen]; exact getElem?_append_cons_length pf f fs
      simp only [List.length_cons, List.range'_succ, forEach, andThen_apply] at hok ⊢
      cases hb : (recordCommandBuffers.body env pc.length w).res with
      | error e => simp [hb] at hok
      | ok u =>
        have hbody := recordCommandBuffers_body_ok env w pc.length c f hcb hfb hb
        rw [hbody] at hok ⊢
        simp only at hok ⊢
        have := ih fs (pc ++ [c]) (pf ++ [f]) w (by simp [hlen]) (by simpa using hcf)
          (by simp [hc]) (by simp [hf])
        simp only [List.length_append, List.length_singleton] at this
        rw [this (by simpa [Out.after] using hok)]
        simp [Out.after, List.zip_cons_cons, List.flatMap_cons]

theorem recordCommandBuffers_ok (env : Env) (w : VulkanRenderer)
    (hok : (recordCommandBuffers env w).res = .ok ()) :
    ∃ dev, w.physical_device_ = some dev ∧ env.fails (allocation w dev) = false ∧
      recordCommandBuffers env w =
        ⟨.ok (),
          { w with command_buffers_ := List.range' w.issued w.frame_buffers_.length,
                   issued := w.issued + w.frame_buffers_.length },
          [allocation w dev, .scene_allocateSceneDescriptorSets] ++
            ((List.range' w.issued w.frame_buffers_.length).zip w.frame_buffers_).flatMap
              (recording w.swap_chain_.extent)⟩ := by
  rcases w with ⟨inst, dc, pd, ss, sc, fbs, cbs, irs, rcs, iss⟩
  cases pd with
  | none => simp [recordCommandBuffers, physical_device] at hok
  | some dev =>
    refine ⟨dev, rfl, ?_⟩
    revert hok
    simp only [recordCommandBuffers, bind_def, andThen_modify, andThen_get, physical_device,
      andThen_ret, andThen_vk, resize_length, allocation]
    by_cases ha : env.fails (.vkAllocateCommandBuffers dev "graphics"
        .VK_COMMAND_BUFFER_LEVEL_PRIMARY fbs.length (List.range' iss fbs.length)) = true
    · simp [ha, VV_CHECK_SUCCESS, Out.after, andThen_assoc]
    · simp only [ha, Bool.false_eq_true, if_false, if_true, andThen_assoc, andThen_modify,
        VV_CHECK_SUCCESS, andThen_ret, andThen_collab, andThen_get, List.length_range',
        Out.after_res]
      by_cases hs : env.fails .scene_allocateSceneDescriptorSets = true
      · simp [hs]
      · simp only [hs, Bool.false_eq_true, if_false, Out.after_res]
        intro hloop
        have := recordCommandBuffers_loop_ok env (List.range' iss fbs.length) fbs [] []
          ⟨inst, dc, some dev, ss, sc, fbs, List.range' iss fbs.length, irs, rcs, iss + fbs.length⟩
          rfl (by simp) rfl rfl (by simpa using hloop)
        simp only [List.length_nil, List.length_range'] at this
        simp [this, Out.after]

theorem forEach_preserves {α : Type} (P : VulkanRenderer → Prop) (f : α → Act Unit)
    (hf : ∀ x w, P w → P (f x w).st) (xs : List α) (w : VulkanRenderer) (hw : P w) :
    P (forEach f xs w).st := by
  induction xs generalizing w with
  | nil => simpa [forEach] using hw
  | cons x xs ih =>
    simp only [forEach, andThen_apply]
    cases h : (f x w).res with
    | error e => simpa using hf x w hw
    | ok a => simpa using ih (f x w).st (hf x w hw)

theorem createFrameBuffers_body_length (env : Env) (n i : Nat) (w : VulkanRenderer)
    (hw : w.frame_buffers_.length = n) :
    (createFrameBuffers.body env i w).st.frame_buffers_.length = n := by
  simp only [createFrameBuffers.body, bind_def, andThen_get, physical_device]
  cases w.physical_device_ with
  | none => simpa using hw
  | some dev =>
    simp only [andThen_ret, andThen_fresh, andThen_vk, VV_CHECK_SUCCESS]
    split <;> simp [Out.after, hw]

theorem createFrameBuffers_length (env : Env) (w : VulkanRenderer) :
    (createFrameBuffers env w).st.frame_buffers_.length = w.swap_chain_.color_image_views := by
  simp only [createFrameBuffers, bind_def, andThen_modify, andThen_get]
  exact forEach_preserves (fun v => v.frame_buffers_.length = w.swap_chain_.color_image_views)
    (createFrameBuffers.body env)
    (fun i v hv => createFrameBuffers_body_length env _ i v hv) _ _ (resize_length _ _)

/-- C6: `createFrameBuffers` makes as many frame buffers as the swap chain has color
image views; and after a successful `recordCommandBuffers` on a renderer with a device
there are as many command buffers as frame buffers, the frame buffers are untouched,
and the calls made are:
one allocation, from the pool `graphics` of the renderer's device, at primary level,
of as many buffers as there are frame buffers, which become `command_buffers_`; the
scene's descriptor set allocation; and then, for each position, the recording of the
command buffer at that position against the frame buffer at that position. -/
theorem recordCommandBuffers_one_per_frame_buffer (env : Env) (w : VulkanRenderer)
    (dev : Adapter) (hdev : w.physical_device_ = some dev)
    (hok : (recordCommandBuffers env w).res = .ok ()) :
    (createFrameBuffers env w).st.frame_buffers_.length = w.swap_chain_.color_image_views ∧
    (recordCommandBuffers env w).st.command_buffers_.length = w.frame_buffers_.length ∧
    (recordCommandBuffers env w).st.frame_buffers_ = w.frame_buffers_ ∧
    (recordCommandBuffers env w).calls =
      [.vkAllocateCommandBuffers dev "graphics" .VK_COMMAND_BUFFER_LEVEL_PRIMARY
          w.frame_buffers_.length (recordCommandBuffers env w).st.command_buffers_,
        .scene_allocateSceneDescriptorSets] ++
      ((recordCommandBuffers env w).st.command_buffers_.zip w.frame_buffers_).flatMap
        (recording w.swap_chain_.extent) := by
  refine ⟨createFrameBuffers_length env w, ?_⟩
  obtain ⟨dev', hdev', _, heq⟩ := recordCommandBuffers_ok env w hok
  have hd : dev' = dev := by
    rw [hdev] at hdev'
    exact (Option.some.inj hdev').symm
  subst hd
  rw [heq]
  exact ⟨by simp, rfl, rfl⟩

/-- C6 on the renderer `create` leaves in the sample environment: two frame buffers,
two command buffers, the first recorded against the first frame buffer and the second
against the second. -/
theorem recordCommandBuffers_one_per_frame_buffer_witness :
    (recordCommandBuffers sample_env (create sample_env blank_renderer).st).st.command_buffers_
      = [7, 8] ∧
    (create sample_env blank_renderer).st.frame_buffers_ = [3, 4] ∧
    (recordCommandBuffers sample_env (create sample_env blank_renderer).st).calls =
      [.vkAllocateCommandBuffers 8 "graphics" .VK_COMMAND_BUFFER_LEVEL_PRIMARY 2 [7, 8],
        .scene_allocateSceneDescriptorSets] ++
      (recording ⟨800, 600⟩ (7, 3) ++ recording ⟨800, 600⟩ (8, 4)) :=
  ⟨by decide, by decide,
    ((recordCommandBuffers_one_per_frame_buffer sample_env
      (create sample_env blank_renderer).st 8 rfl rfl).2.2.2).trans (by decide)⟩

theorem live_from_append (fails : Call → Bool) (l : List Resource) (xs ys : List Call) :
    live_from fails l (xs ++ ys) = live_from fails (live_from fails l xs) ys := by
  simp [live_from, List.foldl_append]

theorem live_from_cons (fails : Call → Bool) (l : List Resource) (c : Call) (cs : List Call) :
    live_from fails l (c :: cs) = live_from fails (track fails l c) cs := rfl

theorem live_from_nil (fails : Call → Bool) (l : List Resource) : live_from fails l [] = l := rfl

theorem track_inert (fails : Call → Bool) (l : List Resource) (c : Call) (h : Inert c) :
    track fails l c = l := by
  simp [track, h.1, h.2]

theorem live_from_inert (fails : Call → Bool) (l : List Resource) (cs : List Call)
    (h : ∀ c ∈ cs, Inert c) : live_from fails l cs = l := by
  induction cs generalizing l with
  | nil => rfl
  | cons c cs ih =>
    rw [live_from_cons, track_inert fails l c (h c (by simp))]
    exact ih l (fun c hc => h c (by simp [hc]))

theorem inert_recording (extent : VkExtent2D) (ps : List (Handle × Handle)) :
    ∀ c ∈ ps.flatMap (recording extent), Inert c := by
  intro c hc
  simp only [List.mem_flatMap, recording, List.mem_cons, List.mem_singleton,
    List.not_mem_nil, or_false] at hc
  obtain ⟨p, _, hp⟩ := hc
  rcases hp with rfl | rfl | rfl | rfl | rfl <;>
    exact ⟨rfl, fun r => by cases r <;> rfl⟩

theorem live_from_recordCommandBuffers (env : Env) (w : VulkanRenderer) (dev : Adapter)
    (hdev : w.physical_device_ = some dev) (l : List Resource)
    (hok : (recordCommandBuffers env w).res = .ok ()) :
    live_from env.fails l (recordCommandBuffers env w).calls =
      l ++ (recordCommandBuffers env w).st.command_buffers_.map (.command_buffer dev) := by
  obtain ⟨dev', hdev', hfail, heq⟩ := recordCommandBuffers_ok env w hok
  have hd : dev' = dev := by
    rw [hdev] at hdev'
    exact (Option.some.inj hdev').symm
  subst hd
  rw [heq]
  simp only [List.cons_append, List.nil_append, live_from_cons]
  have hrel : ∀ r, releases (allocation w dev') r = false := fun r => by cases r <;> rfl
  have h1 : track env.fails l (allocation w dev') =
      l ++ (List.range' w.issued w.frame_buffers_.length).map (.command_buffer dev') := by
    have hacq : acquires (allocation w dev') =
        (List.range' w.issued w.frame_buffers_.length).map (.command_buffer dev') := rfl
    simp [track, hfail, hrel, hacq]
  rw [h1, track_inert env.fails _ .scene_allocateSceneDescriptorSets
    ⟨rfl, fun r => by cases r <;> rfl⟩]
  exact live_from_inert _ _ _ (inert_recording _ _)

/-- C2 on the sample renderer after `create` and `recordCommandBuffers`, acquisition
yielding image 1. -/
theorem run_frame_order_witness :
    (run sample_env 16 recorded_renderer).calls =
      [.window_run,
        .scene_updateUniformData ⟨800, 600⟩ 16,
        .swap_chain_acquireNextImage 8 5,
        .vkQueueSubmit 8
          { pWaitSemaphores := [5]
            pWaitDstStageMask := [.VK_PIPELINE_STAGE_COLOR_ATTACHMENT_OUTPUT_BIT]
            pCommandBuffers := [8]
            pSignalSemaphores := [6] },
        .swap_chain_queuePresent 8 1 6] :=
  (run_frame_order sample_env recorded_renderer 16 1 8 8 rfl rfl rfl rfl).1

/-- C8, refuted as stated: in the sample environment with the surface out of date,
`run` builds no presentation chain and no frame buffer, and the renderer it leaves is
the one it found, on which a following `run` that meets the same surface fails in the
same way. -/
theorem run_out_of_date_rebuilds_nothing :
    (∀ c ∈ (run out_of_date_env 16 recorded_renderer).calls,
      builds c ≠ some .presentation_chain ∧ builds c ≠ some .frame_buffers) ∧
    (run out_of_date_env 16 recorded_renderer).st = recorded_renderer ∧
    (run out_of_date_env 16 (run out_of_date_env 16 recorded_renderer).st).res ≠ .ok () := by
  refine ⟨by decide, by decide, ?_⟩
  intro h
  cases h

/-- C8, amended: when acquisition reports the surface out of date, `run` on a
renderer with a device ends there with the out-of-date failure, which is not the
fatal one; it has polled the window, updated the scene's uniform data and tried the
acquisition, and nothing else: no submit, no present, nothing built or destroyed;
the renderer's fields are left as they were. -/
theorem run_out_of_date (env : Env) (w : VulkanRenderer) (delta_time : Nat) (dev : Adapter)
    (hdev : w.physical_device_ = some dev) (hacq : env.acquire = .out_of_date) :
    run env delta_time w =
      ⟨.error .out_of_date, w,
        [.window_run, .scene_updateUniformData w.swap_chain_.extent delta_time,
          .swap_chain_acquireNextImage dev w.image_ready_semaphore_]⟩ ∧
    Failure.out_of_date ≠ Failure.runtime_error := by
  refine ⟨?_, by decide⟩
  simp [run, physical_device, hdev, acquireNextImage, hacq, andThen_assoc, Out.after]

/-- C8, amended, in the sample environment with the surface out of date. -/
theorem run_out_of_date_witness :
    (run out_of_date_env 16 recorded_renderer).calls =
      [.window_run, .scene_updateUniformData ⟨800, 600⟩ 16, .swap_chain_acquireNextImage 8 5] :=
  congrArg Out.calls (run_out_of_date out_of_date_env recorded_renderer 16 8 rfl rfl).1

theorem andThen_of_eq {α β : Type} {m : Act α} {f : α → Act β} {w st : VulkanRenderer}
    {a : α} {cs : List Call} (h : m w = ⟨.ok a, st, cs⟩) :
    andThen m f w = (f a st).after cs := by
  simp [andThen_apply, h]

theorem andThen_res_ok {α β : Type} {m : Act α} {f : α → Act β} {w : VulkanRenderer} {b : β}
    (h : (andThen m f w).res = .ok b) : ∃ a, (m w).res = .ok a := by
  rw [andThen_apply] at h
  cases hm : (m w).res with
  | ok a => exact ⟨a, rfl⟩
  | error e => simp [hm] at h

theorem createVulkanInstance_ok (env : Env) (w : VulkanRenderer)
    (hok : (createVulkanInstance env w).res = .ok ()) :
    createVulkanInstance env w =
        ⟨.ok (), { w with instance_ := w.issued, issued := w.issued + 1 },
          instance_calls env w.issued⟩ ∧
      env.fails (.vkCreateInstance (getRequiredExtensions env)
        (if env.debug then env.used_validation_layers_ else []) w.issued) = false := by
  revert hok
  simp only [createVulkanInstance, checkValidationLayerSupport, checkInstanceExtensionSupport,
    bind_def, andThen_assoc, andThen_vk, VV_CHECK_SUCCESS, VV_ASSERT, instance_calls]
  by_cases h1 : env.fails (.vkEnumerateInstanceLayerProperties false) = true
  · simp [h1]
  by_cases h2 : env.fails (.vkEnumerateInstanceLayerProperties true) = true
  · simp [h1, h2]
  by_cases h3 : all_found env.available_layers env.used_validation_layers_ = true
  swap
  · simp [h1, h2, h3]
  by_cases h4 : env.fails (.vkEnumerateInstanceExtensionProperties false) = true
  · simp [h1, h2, h3, h4]
  by_cases h5 : env.fails (.vkEnumerateInstanceExtensionProperties true) = true
  · simp [h1, h2, h3, h4, h5]
  by_cases h6 : all_found env.available_extensions (getRequiredExtensions env) = true
  swap
  · simp [h1, h2, h3, h4, h5, h6]
  by_cases h7 : env.fails (.vkCreateInstance (getRequiredExtensions env)
        (if env.debug then env.used_validation_layers_ else []) w.issued) = true
  · simp [h1, h2, h3, h4, h5, h6, h7]
  simp [h1, h2, h3, h4, h5, h6, h7, Out.after]

theorem setupDebugCallback_ok (env : Env) (w : VulkanRenderer)
    (hok : (setupDebugCallback env w).res = .ok ()) :
    setupDebugCallback env w =
        ⟨.ok (),
          if env.debug then { w with debug_callback_ := w.issued, issued := w.issued + 1 } else w,
          debug_calls env w.instance_ w.issued⟩ ∧
      (env.debug = true → env.debug_report_present = true ∧
        env.fails (.vkCreateDebugReportCallbackEXT w.instance_ w.issued) = false) := by
  revert hok
  simp only [setupDebugCallback, createDebugReportCallbackEXT, bind_def, andThen_assoc,
    andThen_vk, VV_CHECK_SUCCESS, debug_calls]
  by_cases hd : env.debug = true
  swap
  · simp [hd]
  by_cases hp : env.debug_report_present = true
  swap
  · simp [hd, hp, Out.after]
  by_cases hf : env.fails (.vkCreateDebugReportCallbackEXT w.instance_ w.issued) = true
  · simp [hd, hp, hf, Out.after, andThen_assoc]
  simp [hd, hp, hf, Out.after, andThen_assoc]

theorem set_append_cons_length {α : Type} (pre : List α) (s a : α) (suf : List α) :
    (pre ++ s :: suf).set pre.length a = pre ++ a :: suf := by
  induction pre with
  | nil => rfl
  | cons p ps ih => simp [ih]

theorem createFrameBuffers_loop_ok (env : Env) (dev : Adapter) (suf : List Handle) :
    ∀ (pre : List Handle) (v : VulkanRenderer), v.physical_device_ = some dev →
      v.frame_buffers_ = pre ++ suf →
      (forEach (createFrameBuffers.body env) (List.range' pre.length suf.length) v).res = .ok () →
      forEach (createFrameBuffers.body env) (List.range' pre.length suf.length) v =
          ⟨.ok (),
            { v with frame_buffers_ := pre ++ List.range' v.issued suf.length,
                     issued := v.issued + suf.length },
            frame_buffer_calls dev v.swap_chain_.extent pre.length v.issued suf.length⟩ ∧
        ∀ c ∈ frame_buffer_calls dev v.swap_chain_.extent pre.length v.issued suf.length,
          env.fails c = false := by
  induction suf with
  | nil =>
    intro pre v _ hf _
    rcases v with ⟨inst, dc, pd, ss, sc, fbs, cbs, irs, rcs, iss⟩
    simp only at hf
    subst hf
    simp [forEach, frame_buffer_calls]
  | cons s suf ih =>
    intro pre v hdev hf hok
    rcases v with ⟨inst, dc, pd, ss, sc, fbs, cbs, irs, rcs, iss⟩
    simp only at hf hdev
    subst hf hdev
    simp only [List.length_cons, List.range'_succ, forEach, createFrameBuffers.body, bind_def,
      andThen_assoc, andThen_get, physical_device, andThen_ret, andThen_fresh, andThen_vk,
      VV_CHECK_SUCCESS, frame_buffer_calls] at hok ⊢
    by_cases hc : env.fails (.vkCreateFramebuffer dev pre.length sc.extent iss) = true
    · simp [hc] at hok
    · simp only [hc, Bool.false_eq_true, if_false, if_true, andThen_ret, andThen_modify,
        Out.after_res, set_append_cons_length] at hok ⊢
      have := ih (pre ++ [iss])
        ⟨inst, dc, some dev, ss, sc, pre ++ iss :: suf, cbs, irs, rcs, iss + 1⟩ rfl (by simp)
        (by simpa using hok)
      simp only [List.length_append, List.length_singleton] at this
      rw [this.1]
      refine ⟨?_, ?_⟩
      · simp [Out.after, List.range'_succ, Nat.add_assoc, Nat.add_comm 1]
      · intro c hcm
        rcases List.mem_cons.mp hcm with rfl | hcm
        · simpa using hc
        · exact this.2 c hcm

theorem createFrameBuffers_ok (env : Env) (w : VulkanRenderer) (dev : Adapter)
    (hdev : w.physical_device_ = some dev)
    (hok : (createFrameBuffers env w).res = .ok ()) :
    createFrameBuffers env w =
        ⟨.ok (),
          { w with frame_buffers_ := List.range' w.issued w.swap_chain_.color_image_views,
                   issued := w.issued + w.swap_chain_.color_image_views },
          frame_buffer_calls dev w.swap_chain_.extent 0 w.issued w.swap_chain_.color_image_views⟩ ∧
      ∀ c ∈ frame_buffer_calls dev w.swap_chain_.extent 0 w.issued
          w.swap_chain_.color_image_views, env.fails c = false := by
  simp only [createFrameBuffers, bind_def, andThen_modify, andThen_get] at hok ⊢
  have := createFrameBuffers_loop_ok env dev
    (resize w.frame_buffers_ w.swap_chain_.color_image_views) []
    { w with frame_buffers_ := resize w.frame_buffers_ w.swap_chain_.color_image_views }
    hdev rfl (by simpa [resize_length] using hok)
  simpa [resize_length] using this

theorem create_eq_body (env : Env) (w : VulkanRenderer) : create env w = create.body env w := by
  unfold create
  cases h : (create.body env w).res <;> simp [← h]

theorem create_body_eq_tail (env : Env) :
    create.body env =
      andThen (emit .GLFWWindow_new) (fun _ =>
      andThen (collab env .window_create) (fun _ =>
      andThen (createVulkanInstance env) (fun _ =>
      andThen get (fun w =>
      andThen (collab env (.window_createSurface w.instance_)) (fun _ =>
      andThen (setupDebugCallback env) (fun _ => create.tail env)))))) := rfl

theorem create_tail_ok (env : Env) (v : VulkanRenderer)
    (hok : (create.tail env v).res = .ok ()) :
    ∃ pre a post, env.physical_devices = pre ++ a :: post ∧ Rejects env pre ∧
      env.isSuitable a = true ∧
      create.tail env v = ⟨.ok (), tail_created env v a, tail_calls env v pre a⟩ ∧
      ∀ c ∈ tail_calls env v pre a, acquires c ≠ [] → env.fails c = false := by
  rcases v with ⟨inst, dc, pd, ss, sc, fbs, cbs, irs, rcs, iss⟩
  simp only [create.tail, bind_def] at hok ⊢
  obtain ⟨_, hdv⟩ := andThen_res_ok hok
  have hout := createVulkanDevices_outcome env ⟨inst, dc, pd, ss, sc, fbs, cbs, irs, rcs, iss⟩
  generalize hgo : createVulkanDevices env ⟨inst, dc, pd, ss, sc, fbs, cbs, irs, rcs, iss⟩ = o
    at hout hdv
  cases hout with
  | no_adapters _ => simp at hdv
  | none_suitable _ _ => simp at hdv
  | create_threw _ _ _ _ _ _ => simp at hdv
  | logical_threw _ _ _ _ _ _ _ _ => simp at hdv
  | found pre a post hds hpre hs hc hl =>
    refine ⟨pre, a, post, hds, hpre, hs, ?_⟩
    rw [andThen_of_eq hgo] at hok ⊢
    simp only [andThen_get, physical_device, andThen_ret, andThen_emit, andThen_collab,
      Out.after_res] at hok ⊢
    by_cases h1 : env.fails (.swap_chain_create a) = true
    · simp [h1] at hok
    simp only [h1, Bool.false_eq_true, if_false, Out.after_res, andThen_modify, andThen_emit,
      andThen_collab] at hok ⊢
    by_cases h2 : env.fails (.render_pass_create a) = true
    · simp [h2] at hok
    simp only [h2, Bool.false_eq_true, if_false, Out.after_res] at hok ⊢
    obtain ⟨_, hfb⟩ := andThen_res_ok hok
    obtain ⟨hfbeq, hfbf⟩ := createFrameBuffers_ok env _ a rfl hfb
    rw [andThen_of_eq hfbeq] at hok ⊢
    simp only [createVulkanSemaphore, bind_def, pure_def, andThen_assoc, andThen_fresh,
      andThen_collab, andThen_ret, andThen_modify, andThen_emit, Out.after_res] at hok ⊢
    by_cases h3 : env.fails (.createVulkanSemaphore a (iss + env.color_image_views)) = true
    · simp [h3] at hok
    simp only [h3, Bool.false_eq_true, if_false, Out.after_res, andThen_ret, andThen_modify,
      andThen_fresh, andThen_collab, andThen_emit] at hok ⊢
    by_cases h4 : env.fails (.createVulkanSemaphore a (iss + env.color_image_views + 1)) = true
    · simp [h4] at hok
    simp only [h4, Bool.false_eq_true, if_false, Out.after_res, andThen_ret, andThen_modify,
      andThen_fresh, andThen_collab, andThen_emit] at hok ⊢
    by_cases h5 : env.fails (.scene_create a) = true
    · simp [h5] at hok
    refine ⟨?_, ?_⟩
    · simp [h5, Out.after, tail_calls, tail_created, enumerated, Nat.add_assoc]
    · intro c hc hacq
      simp only [tail_calls, List.mem_append, List.mem_cons, List.mem_singleton,
        List.not_mem_nil, or_false, enumerated, accepted, List.mem_flatMap, rejected] at hc
      rcases hc with (rfl | rfl) | (⟨x, hx, rfl | rfl | rfl | rfl | rfl⟩ | rfl | rfl | rfl | rfl) |
        (rfl | rfl | rfl | rfl) | hc | rfl | rfl | rfl | rfl
      all_goals first
        | (exfalso; exact hacq rfl)
        | simpa using h1
        | simpa using h2
        | simpa using h3
        | simpa using h4
        | simpa using h5
        | exact hc
        | exact hl
        | exact (hpre x hx).2
        | exact hfbf c hc

theorem create_ok (env : Env) (w : VulkanRenderer) (hok : (create env w).res = .ok ()) :
    ∃ pre a post, env.physical_devices = pre ++ a :: post ∧ Rejects env pre ∧
      env.isSuitable a = true ∧
      (env.debug = true → env.debug_report_present = true) ∧
      create env w = ⟨.ok (), created env w a, create_calls env w pre a⟩ ∧
      ∀ c ∈ create_calls env w pre a, acquires c ≠ [] → env.fails c = false := by
  rw [create_eq_body, create_body_eq_tail] at hok ⊢
  rcases w with ⟨inst, dc, pd, ss, sc, fbs, cbs, irs, rcs, iss⟩
  simp only [andThen_emit, andThen_collab, Out.after_res] at hok ⊢
  by_cases h1 : env.fails .window_create = true
  · simp [h1] at hok
  simp only [h1, Bool.false_eq_true, if_false, Out.after_res] at hok ⊢
  obtain ⟨_, hi⟩ := andThen_res_ok hok
  obtain ⟨hieq, hif⟩ := createVulkanInstance_ok env _ hi
  rw [andThen_of_eq hieq] at hok ⊢
  simp only [andThen_get, andThen_collab, Out.after_res] at hok ⊢
  by_cases h2 : env.fails (.window_createSurface iss) = true
  · simp [h2] at hok
  simp only [h2, Bool.false_eq_true, if_false, Out.after_res] at hok ⊢
  obtain ⟨_, hd⟩ := andThen_res_ok hok
  obtain ⟨hdeq, hdf⟩ := setupDebugCallback_ok env _ hd
  rw [andThen_of_eq hdeq] at hok ⊢
  simp only [Out.after_res] at hok ⊢
  obtain ⟨pre, a, post, hds, hpre, hs, hteq, htf⟩ := create_tail_ok env _ hok
  refine ⟨pre, a, post, hds, hpre, hs, fun hdbg => (hdf hdbg).1, ?_, ?_⟩
  · rw [hteq]
    by_cases hdbg : env.debug = true <;>
      simp [Out.after, created, create_calls, tail_created, tail_calls, debug_handles, hdbg,
        Nat.add_assoc]
  · intro c hc hacq
    simp only [create_calls, List.mem_append, List.mem_cons, List.mem_singleton,
      List.not_mem_nil, or_false, instance_calls] at hc
    rcases hc with (rfl | rfl) | (rfl | rfl | rfl | rfl | rfl) | rfl | hc | hc
    · exact absurd rfl hacq
    · simpa using h1
    · exact absurd rfl hacq
    · exact absurd rfl hacq
    · exact absurd rfl hacq
    · exact absurd rfl hacq
    · exact hif
    · simpa using h2
    · by_cases hdbg : env.debug = true
      · simp only [debug_calls, hdbg, if_true, List.mem_cons, List.mem_singleton,
          List.not_mem_nil, or_false] at hc
        rcases hc with rfl | rfl
        · exact absurd rfl hacq
        · exact (hdf hdbg).2
      · simp [debug_calls, hdbg] at hc
    · refine htf c ?_ hacq
      by_cases hdbg : env.debug = true <;>
        simpa [debug_handles, hdbg, tail_calls] using hc

theorem live_from_releasing (fails : Call → Bool) (cs : List Call)
    (h : ∀ c ∈ cs, acquires c = []) (l : List Resource) :
    live_from fails l cs = l.filter (fun r => !cs.any (fun c => releases c r)) := by
  induction cs generalizing l with
  | nil => simp [live_from_nil]
  | cons c cs ih =>
    rw [live_from_cons, ih (fun c hc => h c (by simp [hc]))]
    simp only [track, h c (by simp), ite_self, List.append_nil, List.filter_filter, List.any_cons]
    congr 1
    funext r
    cases releases c r <;> simp

theorem mem_live_from (fails : Call → Bool) (cs : List Call) (l : List Resource) (r : Resource)
    (hr : r ∈ live_from fails l cs) :
    r ∈ l ∨ ∃ c ∈ cs, fails c = false ∧ r ∈ acquires c := by
  induction cs generalizing l with
  | nil => exact Or.inl hr
  | cons c cs ih =>
    rw [live_from_cons] at hr
    rcases ih _ hr with h | ⟨c', hc', hf, hm⟩
    · simp only [track, List.mem_append, List.mem_filter] at h
      rcases h with h | h
      · exact Or.inl h.1
      · by_cases hf : fails c = true
        · simp [hf] at h
        · exact Or.inr ⟨c, by simp, by simpa using hf, by simpa [hf] using h⟩
    · exact Or.inr ⟨c', by simp [hc'], hf, hm⟩

theorem mem_live_from_rejected (fails : Call → Bool) (pre : List Adapter) (l : List Resource)
    (r : Resource) (hr : r ∈ live_from fails l (pre.flatMap rejected)) : r ∈ l := by
  induction pre generalizing l with
  | nil => exact hr
  | cons x xs ih =>
    rw [List.flatMap_cons, live_from_append] at hr
    have h := ih _ hr
    simp only [rejected, live_from_cons, live_from_nil, track, acquires, List.append_nil,
      ite_self, List.mem_filter, List.mem_append] at h
    by_cases hf : fails (.device_create x) = true
    · simp only [hf, if_true, List.mem_filter, List.not_mem_nil, or_false] at h
      exact h.1.1.1.1.1
    · simp only [hf, Bool.false_eq_true, if_false, List.mem_filter, List.mem_singleton] at h
      rcases h.1.1.1 with h1 | h1
      · exact h1.1.1
      · have h2 := h.1.2
        rw [h1] at h2
        simp [releases] at h2

theorem mem_frame_buffer_calls (dev : Adapter) (extent : VkExtent2D) (c : Call) :
    ∀ (m k : Nat) (h : Handle), c ∈ frame_buffer_calls dev extent k h m →
      ∃ j f, c = .vkCreateFramebuffer dev j extent f ∧ f ∈ List.range' h m := by
  intro m
  induction m with
  | zero => intro k h hc; simp [frame_buffer_calls] at hc
  | succ m ih =>
    intro k h hc
    simp only [frame_buffer_calls, List.mem_cons] at hc
    rcases hc with rfl | hc
    · exact ⟨k, h, rfl, by simp [List.range'_succ]⟩
    · obtain ⟨j, f, hj, hf⟩ := ih (k + 1) (h + 1) hc
      exact ⟨j, f, hj, by simp [List.range'_succ, hf]⟩

theorem teardown_acquires_nothing (env : Env) (w : VulkanRenderer) (dev : Adapter) :
    ∀ c ∈ teardown env w dev, acquires c = [] := by
  intro c hc
  simp only [teardown, debug_teardown, List.mem_append, List.mem_cons, List.mem_singleton,
    List.not_mem_nil, or_false, List.mem_map] at hc
  rcases hc with (rfl | rfl | rfl | rfl | rfl | rfl) | ⟨f, _, rfl⟩ |
    (rfl | rfl | rfl | rfl | rfl | rfl) | hc | rfl
  all_goals try rfl
  by_cases hd : env.debug = true <;> by_cases hp : env.debug_report_present = true <;>
    simp [hd, hp] at hc
  · rcases hc with rfl | rfl <;> rfl
  · subst hc; rfl

theorem swept (env : Env) (w : VulkanRenderer) (dev : Adapter) (r : Resource) (c : Call)
    (hc : c ∈ teardown env w dev) (hr : releases c r = true) :
    (teardown env w dev).any (fun c => releases c r) = true :=
  List.any_eq_true.mpr ⟨c, hc, hr⟩

/-- C5: after a successful `create`, in a debug build or not, a following `shutDown`
leaves no resource alive: of all that the calls of `create` and then of `shutDown`
brought to life (window, surface, instance, debug callback, device and logical
device, swap chain, render pass, every frame buffer, both semaphores, scene) none is
left undestroyed. -/
theorem shutDown_after_create_leaves_nothing (env : Env) (w : VulkanRenderer)
    (hok : (create env w).res = .ok ()) :
    live env.fails ((create env w).calls ++ (shutDown env (create env w).st).calls) = [] := by
  obtain ⟨pre, a, post, _, _, _, hpresent, heq, _⟩ := create_ok env w hok
  rw [heq]
  simp only
  rw [shutDown_eq env (created env w a) a rfl]
  simp only [live]
  rw [live_from_append, live_from_releasing _ _ (teardown_acquires_nothing _ _ _),
    List.filter_eq_nil_iff]
  intro r hr
  suffices hgoal : (teardown env (created env w a) a).any (fun c => releases c r) = true by
    simp [hgoal]
  have hsw := swept env (created env w a) a r
  -- where `r` came from
  have hsrc : ∃ c, (c ∈ [Call.GLFWWindow_new, .window_create] ++ (instance_calls env w.issued ++
        ([.window_createSurface w.issued] ++ (debug_calls env w.issued (w.issued + 1) ++
          enumerated w.issued))) ∨
      c ∈ accepted a ++
        ([.VulkanSwapChain_new, .swap_chain_create a, .VulkanRenderPass_new,
            .render_pass_create a] ++
          (frame_buffer_calls a env.extent 0 (w.issued + 1 + debug_handles env)
              env.color_image_views ++
            [.createVulkanSemaphore a (w.issued + 1 + debug_handles env + env.color_image_views),
              .createVulkanSemaphore a
                (w.issued + 1 + debug_handles env + env.color_image_views + 1),
              .Scene_new, .scene_create a]))) ∧ r ∈ acquires c := by
    have hsplit : create_calls env w pre a =
        ([Call.GLFWWindow_new, .window_create] ++ (instance_calls env w.issued ++
          ([.window_createSurface w.issued] ++ (debug_calls env w.issued (w.issued + 1) ++
            enumerated w.issued)))) ++
        (pre.flatMap rejected ++
        (accepted a ++
          ([.VulkanSwapChain_new, .swap_chain_create a, .VulkanRenderPass_new,
              .render_pass_create a] ++
            (frame_buffer_calls a env.extent 0 (w.issued + 1 + debug_handles env)
                env.color_image_views ++
              [.createVulkanSemaphore a
                  (w.issued + 1 + debug_handles env + env.color_image_views),
                .createVulkanSemaphore a
                  (w.issued + 1 + debug_handles env + env.color_image_views + 1),
                .Scene_new, .scene_create a])))) := by
      simp [create_calls, tail_calls, List.append_assoc]
    rw [hsplit, live_from_append, live_from_append] at hr
    rcases mem_live_from _ _ _ _ hr with h | ⟨c, hc, _, hm⟩
    · have h := mem_live_from_rejected _ _ _ _ h
      rcases mem_live_from _ _ _ _ h with h | ⟨c, hc, _, hm⟩
      · simp at h
      · exact ⟨c, Or.inl hc, hm⟩
    · exact ⟨c, Or.inr hc, hm⟩
  obtain ⟨c, hc, hm⟩ := hsrc
  simp only [List.mem_append, List.mem_cons, List.mem_singleton, List.not_mem_nil, or_false,
    instance_calls, enumerated, accepted] at hc
  rcases hc with ((rfl | rfl) | (rfl | rfl | rfl | rfl | rfl) | rfl | hdbg | (rfl | rfl)) |
    ((rfl | rfl | rfl | rfl) | (rfl | rfl | rfl | rfl) | hfb | rfl | rfl | rfl | rfl)
  all_goals try (simp [acquires] at hm; done)
  · simp only [acquires, List.mem_singleton] at hm
    subst hm
    exact hsw (.window_shutDown w.issued) (by simp [teardown, created, tail_created]) rfl
  · simp only [acquires, List.mem_singleton] at hm
    subst hm
    exact hsw (.vkDestroyInstance w.issued) (by simp [teardown, created, tail_created])
      (by simp [releases])
  · simp only [acquires, List.mem_singleton] at hm
    subst hm
    exact hsw (.window_shutDown w.issued) (by simp [teardown, created, tail_created]) rfl
  · by_cases hd : env.debug = true
    · simp only [debug_calls, hd, if_true, List.mem_cons, List.mem_singleton, List.not_mem_nil,
        or_false] at hdbg
      rcases hdbg with rfl | rfl
      · simp [acquires] at hm
      · simp only [acquires, List.mem_singleton] at hm
        subst hm
        exact hsw (.vkDestroyDebugReportCallbackEXT w.issued (w.issued + 1))
          (by simp [teardown, debug_teardown, created, tail_created, hd, hpresent hd])
          (by simp [releases])
    · simp [debug_calls, hd] at hdbg
  · simp only [acquires, List.mem_singleton] at hm
    subst hm
    exact hsw (.device_shutDown a) (by simp [teardown]) (by simp [releases])
  · simp only [acquires, List.mem_singleton] at hm
    subst hm
    exact hsw (.device_shutDown a) (by simp [teardown]) (by simp [releases])
  · simp only [acquires, List.mem_singleton] at hm
    subst hm
    exact hsw (.swap_chain_shutDown a) (by simp [teardown]) rfl
  · simp only [acquires, List.mem_singleton] at hm
    subst hm
    exact hsw .render_pass_shutDown (by simp [teardown]) rfl
  · obtain ⟨j, f, rfl, hf⟩ := mem_frame_buffer_calls _ _ _ _ _ _ hfb
    simp only [acquires, List.mem_singleton] at hm
    subst hm
    exact hsw (.vkDestroyFramebuffer a f)
      (by simp only [teardown, created, tail_created, List.mem_append, List.mem_map]
          exact Or.inr (Or.inl ⟨f, hf, rfl⟩))
      (by simp [releases])
  · simp only [acquires, List.mem_singleton] at hm
    subst hm
    exact hsw (.vkDestroySemaphore a (w.issued + 1 + debug_handles env + env.color_image_views))
      (by simp [teardown, created, tail_created]) (by simp [releases])
  · simp only [acquires, List.mem_singleton] at hm
    subst hm
    exact hsw (.vkDestroySemaphore a (w.issued + 1 + debug_handles env + env.color_image_views + 1))
      (by simp [teardown, created, tail_created]) (by simp [releases])
  · simp only [acquires, List.mem_singleton] at hm
    subst hm
    exact hsw .scene_shutDown (by simp [teardown]) rfl

/-- C5 in the sample environment, a debug build, and in the same environment as a
build without `_DEBUG`: `create` succeeds, its resources are alive after it, and none
is after `shutDown`. -/
theorem shutDown_after_create_leaves_nothing_witness :
    live sample_env.fails (create sample_env blank_renderer).calls =
      [.window, .vk_instance 1, .surface, .debug_callback 2, .device 8, .logical_device 8,
        .swap_chain, .render_pass, .frame_buffer 3, .frame_buffer 4, .semaphore 5, .semaphore 6,
        .scene] ∧
    live sample_env.fails ((create sample_env blank_renderer).calls ++
      (shutDown sample_env (create sample_env blank_renderer).st).calls) = [] ∧
    live no_debug_env.fails (create no_debug_env blank_renderer).calls =
      [.window, .vk_instance 1, .surface, .device 8, .logical_device 8,
        .swap_chain, .render_pass, .frame_buffer 2, .frame_buffer 3, .semaphore 4, .semaphore 5,
        .scene] ∧
    live no_debug_env.fails ((create no_debug_env blank_renderer).calls ++
      (shutDown no_debug_env (create no_debug_env blank_renderer).st).calls) = [] :=
  ⟨by decide, shutDown_after_create_leaves_nothing sample_env blank_renderer rfl,
    by decide, shutDown_after_create_leaves_nothing no_debug_env blank_renderer rfl⟩

theorem createVulkanInstance_no_enumeration (env : Env) (w : VulkanRenderer) :
    ∀ c ∈ (createVulkanInstance env w).calls, is_device_enumeration c = false := by
  simp only [createVulkanInstance, checkValidationLayerSupport, checkInstanceExtensionSupport,
    bind_def, pure_def, andThen_assoc, andThen_vk, VV_CHECK_SUCCESS, VV_ASSERT]
  by_cases h1 : env.fails (.vkEnumerateInstanceLayerProperties false) = true
  · simp [h1, is_device_enumeration, Out.after]
  by_cases h2 : env.fails (.vkEnumerateInstanceLayerProperties true) = true
  · simp [h1, h2, is_device_enumeration, Out.after]
  by_cases h3 : all_found env.available_layers env.used_validation_layers_ = true
  swap
  · simp [h1, h2, h3, is_device_enumeration, Out.after]
  by_cases h4 : env.fails (.vkEnumerateInstanceExtensionProperties false) = true
  · simp [h1, h2, h3, h4, is_device_enumeration, Out.after]
  by_cases h5 : env.fails (.vkEnumerateInstanceExtensionProperties true) = true
  · simp [h1, h2, h3, h4, h5, is_device_enumeration, Out.after]
  by_cases h6 : all_found env.available_extensions (getRequiredExtensions env) = true
  swap
  · simp [h1, h2, h3, h4, h5, h6, is_device_enumeration, Out.after]
  by_cases h7 : env.fails (.vkCreateInstance (getRequiredExtensions env)
        (if env.debug then env.used_validation_layers_ else []) w.issued) = true
  · simp [h1, h2, h3, h4, h5, h6, h7, is_device_enumeration, Out.after]
  simp [h1, h2, h3, h4, h5, h6, h7, is_device_enumeration, Out.after]

theorem setupDebugCallback_no_enumeration (env : Env) (w : VulkanRenderer) :
    ∀ c ∈ (setupDebugCallback env w).calls, is_device_enumeration c = false := by
  simp only [setupDebugCallback, createDebugReportCallbackEXT, bind_def, pure_def,
    andThen_assoc, andThen_vk, VV_CHECK_SUCCESS]
  by_cases hd : env.debug = true
  swap
  · simp [hd]
  by_cases hp : env.debug_report_present = true
  swap
  · simp [hd, hp, Out.after, is_device_enumeration, andThen_assoc]
  by_cases hf : env.fails (.vkCreateDebugReportCallbackEXT w.instance_ w.issued) = true
  · simp [hd, hp, hf, Out.after, is_device_enumeration, andThen_assoc]
  simp [hd, hp, hf, Out.after, is_device_enumeration, andThen_assoc]

theorem andThen_of_error {α β : Type} {m : Act α} {f : α → Act β} {w : VulkanRenderer}
    {e : Failure} (h : (m w).res = .error e) :
    andThen m f w = ⟨.error e, (m w).st, (m w).calls⟩ := by
  simp [andThen_apply, h]

theorem create_reaches_devices (env : Env) (w : VulkanRenderer)
    (hreached : ∃ c ∈ (create env w).calls, is_device_enumeration c = true) :
    create env w = (create.tail env (prelude_state env w)).after (prelude_calls env w) ∧
    ∀ c ∈ prelude_calls env w, acquires c ≠ [] → env.fails c = false := by
  obtain ⟨x, hx, hxe⟩ := hreached
  rw [create_eq_body, create_body_eq_tail] at hx ⊢
  rcases w with ⟨inst, dc, pd, ss, sc, fbs, cbs, irs, rcs, iss⟩
  simp only [andThen_emit, andThen_collab] at hx ⊢
  by_cases h1 : env.fails .window_create = true
  · simp only [h1, if_true, Out.after_calls, List.singleton_append, List.mem_cons,
      List.mem_singleton, List.not_mem_nil, or_false] at hx
    rcases hx with rfl | rfl <;> simp [is_device_enumeration] at hxe
  simp only [h1, Bool.false_eq_true, if_false] at hx ⊢
  cases hi : (createVulkanInstance env ⟨inst, dc, pd, ss, sc, fbs, cbs, irs, rcs, iss⟩).res with
  | error e =>
    rw [andThen_of_error hi] at hx
    simp only [Out.after_calls, List.singleton_append, List.mem_cons, List.mem_append] at hx
    rcases hx with rfl | rfl | hx
    · simp [is_device_enumeration] at hxe
    · simp [is_device_enumeration] at hxe
    · rw [createVulkanInstance_no_enumeration env _ x hx] at hxe
      cases hxe
  | ok u =>
    obtain ⟨hieq, hif⟩ := createVulkanInstance_ok env _ hi
    rw [andThen_of_eq hieq] at hx ⊢
    simp only [andThen_get, andThen_collab] at hx ⊢
    by_cases h2 : env.fails (.window_createSurface iss) = true
    · simp only [h2, if_true, Out.after_calls, List.singleton_append, List.mem_cons,
        List.mem_singleton, List.mem_append, instance_calls, List.not_mem_nil, or_false] at hx
      rcases hx with rfl | rfl | (rfl | rfl | rfl | rfl | rfl) | rfl <;>
        simp [is_device_enumeration] at hxe
    simp only [h2, Bool.false_eq_true, if_false] at hx ⊢
    cases hd : (setupDebugCallback env
        ⟨iss, dc, pd, ss, sc, fbs, cbs, irs, rcs, iss + 1⟩).res with
    | error e =>
      rw [andThen_of_error hd] at hx
      simp only [Out.after_calls, List.singleton_append, List.mem_cons, List.mem_append,
        instance_calls, List.mem_singleton, List.not_mem_nil, or_false] at hx
      rcases hx with rfl | rfl | (rfl | rfl | rfl | rfl | rfl) | rfl | hx
      any_goals (simp [is_device_enumeration] at hxe; done)
      rw [setupDebugCallback_no_enumeration env _ x hx] at hxe
      cases hxe
    | ok u =>
      obtain ⟨hdeq, hdf⟩ := setupDebugCallback_ok env _ hd
      rw [andThen_of_eq hdeq]
      refine ⟨?_, ?_⟩
      · by_cases hdbg : env.debug = true <;>
          simp [Out.after, prelude_calls, prelude_state, debug_handles, hdbg, Nat.add_assoc]
      · intro c hc hacq
        simp only [prelude_calls, List.mem_append, List.mem_cons, List.mem_singleton,
          List.not_mem_nil, or_false, instance_calls] at hc
        rcases hc with (rfl | rfl) | (rfl | rfl | rfl | rfl | rfl) | rfl | hc
        · exact absurd rfl hacq
        · simpa using h1
        · exact absurd rfl hacq
        · exact absurd rfl hacq
        · exact absurd rfl hacq
        · exact absurd rfl hacq
        · exact hif
        · simpa using h2
        · by_cases hdbg : env.debug = true
          · simp only [debug_calls, hdbg, if_true, List.mem_cons, List.mem_singleton,
              List.not_mem_nil, or_false] at hc
            rcases hc with rfl | rfl
            · exact absurd rfl hacq
            · exact (hdf hdbg).2
          · simp [debug_calls, hdbg] at hc

theorem live_from_building (fails : Call → Bool) (cs : List Call)
    (h : ∀ c ∈ cs, ∀ r, releases c r = false) (l : List Resource) :
    live_from fails l cs = l ++ cs.flatMap (fun c => if fails c then [] else acquires c) := by
  induction cs generalizing l with
  | nil => simp [live_from_nil]
  | cons c cs ih =>
    rw [live_from_cons, ih (fun c hc => h c (by simp [hc]))]
    simp [track, h c (by simp), List.flatMap_cons]

theorem prelude_calls_release_nothing (env : Env) (w : VulkanRenderer) :
    ∀ c ∈ prelude_calls env w ++ [.vkEnumeratePhysicalDevices w.issued false],
      is_teardown c = false ∧ ∀ r, releases c r = false := by
  intro c hc
  simp only [prelude_calls, instance_calls, debug_calls, List.mem_append, List.mem_cons,
    List.mem_singleton, List.not_mem_nil, or_false] at hc
  rcases hc with ((rfl | rfl) | (rfl | rfl | rfl | rfl | rfl) | rfl | hc) | rfl
  all_goals first
    | (refine And.intro ?_ ?_; exact rfl; (intro r; cases r <;> rfl))
    | skip
  by_cases hd : env.debug = true
  · simp only [hd, if_true, List.mem_cons, List.mem_singleton, List.not_mem_nil, or_false] at hc
    rcases hc with rfl | rfl <;>
      (refine And.intro ?_ ?_; exact rfl; (intro r; cases r <;> rfl))
  · simp [hd] at hc

/-- C9, refuted as stated: in the sample environment without adapters `create` fails,
and what it had built remains allocated. -/
theorem create_without_adapters_leaves_resources :
    (create no_adapter_env blank_renderer).res = .error .runtime_error ∧
    live no_adapter_env.fails (create no_adapter_env blank_renderer).calls =
      [.window, .vk_instance 1, .surface, .debug_callback 2] := by
  exact ⟨rfl, by decide⟩

/-- C9, amended: when `create` gets as far as enumerating the devices and the
enumeration returns none, `create` fails with the fatal error right after the
enumeration call.  It releases nothing: no call it made destroys, shuts down or
frees anything, and the window, the instance, the surface and, in a debug build, the
debug callback it had built are still alive. -/
theorem create_without_adapters (env : Env) (w : VulkanRenderer)
    (hnone : env.physical_devices = [])
    (hreached : ∃ c ∈ (create env w).calls, is_device_enumeration c = true) :
    (create env w).res = .error .runtime_error ∧
    (create env w).calls.getLast? = some (.vkEnumeratePhysicalDevices w.issued false) ∧
    (∀ c ∈ (create env w).calls, is_teardown c = false) ∧
    live env.fails (create env w).calls =
      [.window, .vk_instance w.issued, .surface] ++
        (if env.debug then [.debug_callback (w.issued + 1)] else []) := by
  obtain ⟨heq, hfails⟩ := create_reaches_devices env w hreached
  have htail : create.tail env (prelude_state env w) =
      ⟨.error .runtime_error, prelude_state env w,
        [.vkEnumeratePhysicalDevices w.issued false]⟩ := by
    simp [create.tail, createVulkanDevices, hnone, VV_ASSERT, andThen_assoc, Out.after,
      prelude_state]
  rw [heq, htail]
  have hrel := prelude_calls_release_nothing env w
  refine ⟨rfl, by simp [Out.after], fun c hc => (hrel c hc).1, ?_⟩
  simp only [Out.after_calls, live]
  rw [live_from_building _ _ (fun c hc => (hrel c hc).2)]
  have h1 := hfails .window_create (by simp [prelude_calls]) (by simp [acquires])
  have h2 := hfails (.vkCreateInstance (getRequiredExtensions env)
    (if env.debug then env.used_validation_layers_ else []) w.issued)
    (by simp [prelude_calls, instance_calls]) (by simp [acquires])
  have h3 := hfails (.window_createSurface w.issued) (by simp [prelude_calls])
    (by simp [acquires])
  by_cases hd : env.debug = true
  · have h4 := hfails (.vkCreateDebugReportCallbackEXT w.issued (w.issued + 1))
      (by simp [prelude_calls, debug_calls, hd]) (by simp [acquires])
    simp only [hd, if_true] at h2
    simp [prelude_calls, instance_calls, debug_calls, hd, acquires, h1, h2, h3, h4]
  · simp only [hd, Bool.false_eq_true, if_false] at h2
    simp [prelude_calls, instance_calls, debug_calls, hd, acquires, h1, h2, h3]

/-- C9, amended, in the sample environment without adapters. -/
theorem create_without_adapters_witness :
    (create no_adapter_env blank_renderer).res = .error .runtime_error ∧
    (create no_adapter_env blank_renderer).calls.getLast? =
      some (.vkEnumeratePhysicalDevices 1 false) :=
  ⟨(create_without_adapters no_adapter_env blank_renderer rfl
      ⟨.vkEnumeratePhysicalDevices 1 false, by decide, rfl⟩).1,
    (create_without_adapters no_adapter_env blank_renderer rfl
      ⟨.vkEnumeratePhysicalDevices 1 false, by decide, rfl⟩).2.1⟩

section staged

variable {α β : Type} {env : Env}

theorem Quiet.of_no_calls : Quiet env [] := by
  intro c hc
  simp at hc

theorem Quiet.joined {xs ys : List Call} (hx : Quiet env xs) (hy : Quiet env ys) :
    Quiet env (xs ++ ys) := by
  intro c hc
  rcases List.mem_append.mp hc with h | h
  · exact hx c h
  · exact hy c h

theorem Quiet.with_call {c : Call} {cs : List Call} (hc : is_checked c = true → env.fails c = false)
    (h : Quiet env cs) : Quiet env (c :: cs) := by
  intro x hx
  rcases List.mem_cons.mp hx with rfl | hx
  · exact hc
  · exact h x hx

theorem Staged.of_no_calls_ok (a : α) (st : VulkanRenderer) : Staged env ⟨.ok a, st, []⟩ [] :=
  ⟨by simp, fun _ _ => rfl, Quiet.of_no_calls, fun _ _ => Quiet.of_no_calls⟩

theorem Staged.of_no_calls_error (e : Failure) (st : VulkanRenderer) (plan : List Stage) :
    Staged env (⟨.error e, st, []⟩ : Out α) plan :=
  ⟨by simp, fun _ h => by simp at h, Quiet.of_no_calls, fun _ h => by simp at h⟩

theorem Staged.of_quiet_ok (a : α) (st : VulkanRenderer) (cs : List Call) (p : List Stage)
    (hq : Quiet env cs) (hp : cs.filterMap builds = p) : Staged env ⟨.ok a, st, cs⟩ p :=
  ⟨by simp [hp], fun _ _ => hp, fun c hc => hq c (List.mem_of_mem_dropLast hc), fun _ _ => hq⟩

theorem Staged.of_quiet_error (e : Failure) (st : VulkanRenderer) (cs : List Call)
    (p : List Stage) (hq : Quiet env cs) (hp : cs.filterMap builds <+: p) :
    Staged env (⟨.error e, st, cs⟩ : Out α) p :=
  ⟨hp, fun _ h => by simp at h, fun c hc => hq c (List.mem_of_mem_dropLast hc),
    fun _ h => by simp at h⟩

theorem Staged.of_quiet_then_failed (e : Failure) (st : VulkanRenderer) (cs : List Call)
    (c : Call) (p : List Stage) (hq : Quiet env cs)
    (hp : (cs ++ [c]).filterMap builds <+: p) :
    Staged env (⟨.error e, st, cs ++ [c]⟩ : Out α) p :=
  ⟨hp, fun _ h => by simp at h,
    fun x hx => by
      simp only [List.dropLast_concat] at hx
      exact hq x hx,
    fun _ h => by simp at h⟩

theorem Staged.after_call {o : Out α} {p : List Stage} (c : Call)
    (hf : is_checked c = true → env.fails c = false) (h : Staged env o p) :
    Staged env (o.after [c]) ((builds c).toList ++ p) := by
  refine ⟨?_, ?_, ?_, ?_⟩
  · have := h.initial
    cases hb : builds c with
    | none => simpa [hb] using this
    | some s => simpa [hb, List.cons_prefix_cons] using this
  · intro a ha
    have := h.complete a ha
    cases hb : builds c with
    | none => simpa [hb] using this
    | some s => simpa [hb] using this
  · intro x hx
    simp only [Out.after_calls, List.singleton_append] at hx
    cases hcs : o.calls with
    | nil => simp [hcs] at hx
    | cons y ys =>
      rw [hcs, List.dropLast_cons₂, List.mem_cons] at hx
      rcases hx with rfl | hx
      · exact hf
      · exact h.clean x (by rw [hcs]; exact hx)
  · intro a ha
    exact Quiet.with_call hf (h.clean_ok a ha)

theorem Staged.failed_call (e : Failure) (st : VulkanRenderer) (c : Call) (p : List Stage) :
    Staged env (⟨.error e, st, [c]⟩ : Out α) ((builds c).toList ++ p) :=
  ⟨by cases hb : builds c <;> simp [hb, List.cons_prefix_cons], fun _ h => by simp at h,
    Quiet.of_no_calls, fun _ h => by simp at h⟩

theorem Staged.seq {m : Act α} {f : α → Act β} {w : VulkanRenderer} {p q : List Stage}
    (hm : Staged env (m w) p) (hf : ∀ a, (m w).res = .ok a → Staged env (f a (m w).st) q) :
    Staged env (Act.andThen m f w) (p ++ q) := by
  rw [andThen_apply]
  cases hres : (m w).res with
  | error e =>
    simp only
    exact ⟨hm.initial.trans (List.prefix_append p q), fun _ h => by simp at h, hm.clean,
      fun _ h => by simp at h⟩
  | ok a =>
    simp only
    have h2 := hf a hres
    have hp := hm.complete a hres
    refine ⟨?_, ?_, ?_, ?_⟩
    · simp only [Out.after_calls, List.filterMap_append, hp]
      exact (List.prefix_append_right_inj p).mpr h2.initial
    · intro b hb
      simp only [Out.after_calls, List.filterMap_append, hp]
      rw [h2.complete b (by simpa using hb)]
    · intro x hx
      simp only [Out.after_calls] at hx
      by_cases hnil : (f a (m w).st).calls = []
      · rw [hnil, List.append_nil] at hx
        exact hm.clean x hx
      · rw [List.dropLast_append_of_ne_nil _ hnil, List.mem_append] at hx
        rcases hx with hx | hx
        · exact hm.clean_ok a hres x hx
        · exact h2.clean x hx
    · intro b hb
      exact (hm.clean_ok a hres).joined (h2.clean_ok b (by simpa using hb))

theorem Staged.over_collab {c : Call} {f : Unit → Act β} {w : VulkanRenderer} {p : List Stage}
    (h : Staged env (f () w) p) :
    Staged env (Act.andThen (Act.collab env c) f w) ((builds c).toList ++ p) := by
  rw [andThen_collab]
  by_cases hf : env.fails c = true
  · simp only [hf, if_true]
    exact Staged.failed_call _ _ c p
  · simp only [hf, Bool.false_eq_true, if_false]
    exact Staged.after_call c (fun _ => by simpa using hf) h

theorem Staged.step_collab (c : Call) (s : Stage) (hc : builds c = some s)
    {f : Unit → Act β} {w : VulkanRenderer} {p : List Stage} (h : Staged env (f () w) p) :
    Staged env (Act.andThen (Act.collab env c) f w) (s :: p) := by
  have := Staged.over_collab (c := c) h
  simpa [hc] using this

theorem Staged.step_collab_silent (c : Call) (hc : builds c = none)
    {f : Unit → Act β} {w : VulkanRenderer} {p : List Stage} (h : Staged env (f () w) p) :
    Staged env (Act.andThen (Act.collab env c) f w) p := by
  have := Staged.over_collab (c := c) h
  simpa [hc] using this

theorem Staged.step_collab_last (c : Call) (s : Stage) (hc : builds c = some s)
    (w : VulkanRenderer) : Staged env (Act.collab env c w) [s] := by
  rw [collab_apply]
  by_cases hf : env.fails c = true
  · simp only [hf, if_true]
    have := @Staged.failed_call Unit env .runtime_error w c []
    simpa [hc] using this
  · simp only [hf, Bool.false_eq_true, if_false]
    have : Staged env ((⟨.ok (), w, []⟩ : Out Unit).after [c]) ((builds c).toList ++ []) :=
      Staged.after_call c (fun _ => by simpa using hf) (Staged.of_no_calls_ok () w)
    simpa [Out.after, hc] using this

theorem Staged.step_emit (c : Call) (hc : builds c = none) (hu : is_checked c = false)
    {f : Unit → Act β} {w : VulkanRenderer} {p : List Stage} (h : Staged env (f () w) p) :
    Staged env (Act.andThen (Act.emit c) f w) p := by
  rw [andThen_emit]
  have := Staged.after_call c (fun hch => by rw [hu] at hch; cases hch) h
  simpa [hc] using this

end staged

theorem createVulkanInstance_staged (env : Env) (w : VulkanRenderer) :
    Staged env (createVulkanInstance env w) [.vk_instance] := by
  simp only [createVulkanInstance, checkValidationLayerSupport, checkInstanceExtensionSupport,
    bind_def, pure_def, andThen_assoc, andThen_vk, VV_CHECK_SUCCESS, VV_ASSERT]
  by_cases h1 : env.fails (.vkEnumerateInstanceLayerProperties false) = true
  · constructor <;> simp [h1, builds, Quiet, Out.after]
  by_cases h2 : env.fails (.vkEnumerateInstanceLayerProperties true) = true
  · constructor <;> simp [h1, h2, builds, Quiet, Out.after]
  by_cases h3 : all_found env.available_layers env.used_validation_layers_ = true
  swap
  · constructor <;> simp [h1, h2, h3, builds, Quiet, Out.after]
  by_cases h4 : env.fails (.vkEnumerateInstanceExtensionProperties false) = true
  · constructor <;> simp [h1, h2, h3, h4, builds, Quiet, Out.after]
  by_cases h5 : env.fails (.vkEnumerateInstanceExtensionProperties true) = true
  · constructor <;> simp [h1, h2, h3, h4, h5, builds, Quiet, Out.after]
  by_cases h6 : all_found env.available_extensions (getRequiredExtensions env) = true
  swap
  · constructor <;> simp [h1, h2, h3, h4, h5, h6, builds, Quiet, Out.after]
  by_cases h7 : env.fails (.vkCreateInstance (getRequiredExtensions env)
        (if env.debug then env.used_validation_layers_ else []) w.issued) = true
  · constructor <;> simp [h1, h2, h3, h4, h5, h6, h7, builds, Quiet, Out.after]
  constructor <;> simp [h1, h2, h3, h4, h5, h6, h7, builds, Quiet, Out.after]

theorem setupDebugCallback_staged (env : Env) (w : VulkanRenderer) :
    Staged env (setupDebugCallback env w) (if env.debug then [.debug_hook] else []) := by
  simp only [setupDebugCallback, createDebugReportCallbackEXT, bind_def, pure_def,
    andThen_assoc, andThen_vk, VV_CHECK_SUCCESS]
  by_cases hd : env.debug = true
  swap
  · constructor <;> simp [hd, Quiet]
  by_cases hp : env.debug_report_present = true
  swap
  · constructor <;> simp [hd, hp, Out.after, builds, Quiet, is_checked, andThen_assoc]
  by_cases hf : env.fails (.vkCreateDebugReportCallbackEXT w.instance_ w.issued) = true
  · constructor <;> simp [hd, hp, hf, Out.after, builds, Quiet, is_checked, andThen_assoc]
  constructor <;> simp [hd, hp, hf, Out.after, builds, Quiet, is_checked, andThen_assoc]

theorem filterMap_builds_silent (cs : List Call) (h : ∀ c ∈ cs, builds c = none) :
    cs.filterMap builds = [] := by
  induction cs with
  | nil => rfl
  | cons c cs ih =>
    rw [List.filterMap_cons, h c (by simp)]
    exact ih (fun x hx => h x (by simp [hx]))

theorem rejected_silent (pre : List Adapter) : ∀ c ∈ pre.flatMap rejected, builds c = none := by
  intro c hc
  simp only [List.mem_flatMap, rejected, List.mem_cons, List.mem_singleton, List.not_mem_nil,
    or_false] at hc
  obtain ⟨x, _, rfl | rfl | rfl | rfl | rfl⟩ := hc <;> rfl

theorem rejected_quiet (env : Env) (pre : List Adapter) (hpre : Rejects env pre) :
    Quiet env (pre.flatMap rejected) := by
  intro c hc hch
  simp only [List.mem_flatMap, rejected, List.mem_cons, List.mem_singleton, List.not_mem_nil,
    or_false] at hc
  obtain ⟨x, hx, rfl | rfl | rfl | rfl | rfl⟩ := hc
  any_goals (simp [is_checked] at hch; done)
  exact (hpre x hx).2

theorem createVulkanDevices_staged (env : Env) (w : VulkanRenderer) :
    Staged env (createVulkanDevices env w) [.device] := by
  have h := createVulkanDevices_outcome env w
  generalize createVulkanDevices env w = o at h
  have henum : Quiet env (enumerated w.instance_) := by
    intro c hc hch
    simp only [enumerated, List.mem_cons, List.mem_singleton, List.not_mem_nil, or_false] at hc
    rcases hc with rfl | rfl <;> simp [is_checked] at hch
  have hproj : ∀ pre : List Adapter,
      (enumerated w.instance_ ++ pre.flatMap rejected).filterMap builds = [] := by
    intro pre
    simp [List.filterMap_append, filterMap_builds_silent _ (rejected_silent pre), enumerated,
      builds]
  cases h with
  | no_adapters hds =>
    exact Staged.of_quiet_error _ _ _ _ (by intro c hc hch; simp at hc; subst hc; simp [is_checked] at hch)
      (by simp [builds])
  | found pre a post hds hpre hs hc hl =>
    refine Staged.of_quiet_ok _ _ _ _ ?_ ?_
    · refine henum.joined ((rejected_quiet env pre hpre).joined ?_)
      intro c hcm hch
      simp only [accepted, List.mem_cons, List.mem_singleton, List.not_mem_nil, or_false] at hcm
      rcases hcm with rfl | rfl | rfl | rfl
      · simp [is_checked] at hch
      · exact hc
      · simp [is_checked] at hch
      · exact hl
    · simp [List.filterMap_append, filterMap_builds_silent _ (rejected_silent pre), enumerated,
        accepted, builds]
  | none_suitable hne hpre =>
    exact Staged.of_quiet_error _ _ _ _ (henum.joined (rejected_quiet env _ hpre))
      (by simp [hproj])
  | create_threw pre a post hds hpre hc =>
    have hsplit : enumerated w.instance_ ++
        (pre.flatMap rejected ++ [.VulkanDevice_new, .device_create a]) =
        (enumerated w.instance_ ++ (pre.flatMap rejected ++ [.VulkanDevice_new])) ++
          [.device_create a] := by simp
    rw [hsplit]
    refine Staged.of_quiet_then_failed _ _ _ _ _ ?_ ?_
    · refine henum.joined ((rejected_quiet env pre hpre).joined ?_)
      intro c hcm hch
      simp only [List.mem_singleton] at hcm
      subst hcm
      simp [is_checked] at hch
    · simp [List.filterMap_append, filterMap_builds_silent _ (rejected_silent pre), enumerated,
        builds]
  | logical_threw pre a post hds hpre hs hc hl =>
    have hsplit : enumerated w.instance_ ++ (pre.flatMap rejected ++ accepted a) =
        (enumerated w.instance_ ++
          (pre.flatMap rejected ++ [.VulkanDevice_new, .device_create a, .device_isSuitable a])) ++
          [.device_createLogicalDevice a] := by simp [accepted]
    rw [hsplit]
    refine Staged.of_quiet_then_failed _ _ _ _ _ ?_ ?_
    · refine henum.joined ((rejected_quiet env pre hpre).joined ?_)
      intro c hcm hch
      simp only [List.mem_cons, List.mem_singleton, List.not_mem_nil, or_false] at hcm
      rcases hcm with rfl | rfl | rfl
      · simp [is_checked] at hch
      · exact hc
      · simp [is_checked] at hch
    · simp [List.filterMap_append, filterMap_builds_silent _ (rejected_silent pre), enumerated,
        builds]

theorem createFrameBuffers_body_staged (env : Env) (i : Nat) (w : VulkanRenderer) :
    Staged env (createFrameBuffers.body env i w) [.frame_buffers] := by
  simp only [createFrameBuffers.body, bind_def, andThen_get, physical_device]
  cases w.physical_device_ with
  | none => exact Staged.of_no_calls_error _ _ _
  | some dev =>
    simp only [andThen_ret, andThen_fresh, andThen_vk, VV_CHECK_SUCCESS]
    by_cases hf : env.fails (.vkCreateFramebuffer dev i w.swap_chain_.extent w.issued) = true
    · constructor <;> simp [hf, builds, Quiet, Out.after]
    · constructor <;> simp [hf, builds, Quiet, Out.after]

theorem forEach_staged {α : Type} (env : Env) (f : α → Act Unit) (s : Stage)
    (hf : ∀ x w, Staged env (f x w) [s]) (xs : List α) (w : VulkanRenderer) :
    Staged env (forEach f xs w) (List.replicate xs.length s) := by
  induction xs generalizing w with
  | nil => exact Staged.of_no_calls_ok _ _
  | cons x xs ih =>
    simp only [forEach, List.length_cons, List.replicate_succ]
    exact Staged.seq (p := [s]) (hf x w) (fun _ _ => ih _)

theorem createFrameBuffers_staged (env : Env) (w : VulkanRenderer) :
    Staged env (createFrameBuffers env w)
      (List.replicate w.swap_chain_.color_image_views .frame_buffers) := by
  simp only [createFrameBuffers, bind_def, andThen_modify, andThen_get]
  have := forEach_staged env (createFrameBuffers.body env) .frame_buffers
    (createFrameBuffers_body_staged env) (List.range' 0 w.swap_chain_.color_image_views)
    { w with frame_buffers_ := resize w.frame_buffers_ w.swap_chain_.color_image_views }
  simpa using this

theorem create_tail_staged (env : Env) (v : VulkanRenderer) :
    Staged env (create.tail env v)
      ([.device] ++ (.presentation_chain :: .render_target_layout ::
        (List.replicate env.color_image_views .frame_buffers ++
          (.synchronization :: .synchronization :: [.scene])))) := by
  simp only [create.tail, bind_def, pure_def]
  refine Staged.seq (createVulkanDevices_staged env v) (fun _ _ => ?_)
  refine Staged.step_emit _ (by rfl) (by rfl) ?_
  simp only [andThen_get, physical_device]
  cases (createVulkanDevices env v).st.physical_device_ with
  | none => exact Staged.of_no_calls_error _ _ _
  | some dev =>
    simp only [andThen_ret]
    refine Staged.step_collab _ _ (by rfl) ?_
    simp only [andThen_modify]
    refine Staged.step_emit _ (by rfl) (by rfl) (Staged.step_collab _ _ (by rfl) ?_)
    refine Staged.seq (createFrameBuffers_staged env _) (fun _ _ => ?_)
    simp only [createVulkanSemaphore, bind_def, pure_def, andThen_assoc, andThen_fresh]
    refine Staged.step_collab _ _ (by rfl) ?_
    simp only [andThen_ret, andThen_modify, andThen_fresh]
    refine Staged.step_collab _ _ (by rfl) ?_
    simp only [andThen_ret, andThen_modify]
    exact Staged.step_emit _ (by rfl) (by rfl) (Staged.step_collab_last _ _ (by rfl) _)

theorem create_staged (env : Env) (w : VulkanRenderer) :
    Staged env (create env w) (build_order env) := by
  rw [create_eq_body, create_body_eq_tail]
  have h : Staged env
      (andThen (emit .GLFWWindow_new) (fun _ =>
        andThen (collab env .window_create) (fun _ =>
        andThen (createVulkanInstance env) (fun _ =>
        andThen get (fun w =>
        andThen (collab env (.window_createSurface w.instance_)) (fun _ =>
        andThen (setupDebugCallback env) (fun _ => create.tail env)))))) w)
      (.window :: ([.vk_instance] ++ ((if env.debug then [.debug_hook] else []) ++
        ([.device] ++ (.presentation_chain :: .render_target_layout ::
          (List.replicate env.color_image_views .frame_buffers ++
            (.synchronization :: .synchronization :: [.scene]))))))) := by
    refine Staged.step_emit _ (by rfl) (by rfl) (Staged.step_collab _ _ (by rfl) ?_)
    refine Staged.seq (createVulkanInstance_staged env w) (fun _ _ => ?_)
    simp only [andThen_get]
    refine Staged.step_collab_silent _ (by rfl) ?_
    exact Staged.seq (setupDebugCallback_staged env _) (fun _ _ => create_tail_staged env _)
  simpa [build_order] using h

theorem semaphore_created_rejected (pre : List Adapter) :
    (pre.flatMap rejected).filterMap semaphore_created = [] := by
  induction pre with
  | nil => rfl
  | cons x xs ih =>
    simpa [List.flatMap_cons, rejected, semaphore_created, List.filterMap_append] using ih

theorem semaphore_created_frame_buffer_calls (dev : Adapter) (extent : VkExtent2D) (m : Nat) :
    ∀ (k : Nat) (h : Handle),
      (frame_buffer_calls dev extent k h m).filterMap semaphore_created = [] := by
  induction m with
  | zero => intro k h; rfl
  | succ m ih =>
    intro k h
    simpa [frame_buffer_calls, semaphore_created] using ih (k + 1) (h + 1)

/-- C10: `create` builds in the order window, instance, debug hook (debug builds
only), device, presentation chain, render target layout, frame buffers,
synchronization pair, scene.  Whatever happens, the stages its calls build are an
initial part of that order; when it succeeds they are the whole of it, and the two
semaphores created are, in this order, the image-ready and the rendering-complete
one; and when a call whose failure `create` observes fails (any call that builds a
stage is one), that call is the last call `create` makes and `create` does not
succeed, so that no later step is performed. -/
theorem create_build_order (env : Env) (w : VulkanRenderer) :
    (create env w).calls.filterMap builds <+: build_order env ∧
    ((create env w).res = .ok () →
      (create env w).calls.filterMap builds = build_order env ∧
      (create env w).calls.filterMap semaphore_created =
        [(create env w).st.image_ready_semaphore_,
          (create env w).st.rendering_complete_semaphore_]) ∧
    (∀ c, builds c ≠ none → is_checked c = true) ∧
    (∀ pre c post, (create env w).calls = pre ++ c :: post → is_checked c = true →
      env.fails c = true → post = [] ∧ (create env w).res ≠ .ok ()) := by
  have hst := create_staged env w
  refine ⟨hst.initial, fun hok => ⟨hst.complete () hok, ?_⟩,
    fun c hb => by cases c <;> first | rfl | exact absurd rfl hb,
    fun pre c post hcalls hb hf => ⟨?_, ?_⟩⟩
  · obtain ⟨pre, a, post, _, _, _, _, heq, _⟩ := create_ok env w hok
    rw [heq]
    by_cases hd : env.debug = true <;>
      simp [create_calls, tail_calls, created, tail_created, instance_calls, debug_calls,
        enumerated, accepted, hd, List.filterMap_append, semaphore_created,
        semaphore_created_rejected, semaphore_created_frame_buffer_calls]
  · cases post with
    | nil => rfl
    | cons y ys =>
      have hmem : c ∈ (create env w).calls.dropLast := by
        rw [hcalls, List.dropLast_append_of_ne_nil _ (by simp), List.dropLast_cons₂]
        simp
      have := hst.clean c hmem hb
      rw [hf] at this
      cases this
  · intro hok
    have := hst.clean_ok () hok c (by rw [hcalls]; simp) hb
    rw [hf] at this
    cases this

/-- C10 in the sample environment, where `create` succeeds, and in the one whose swap
chain cannot be created, where `create` stops at that call. -/
theorem create_build_order_witness :
    (create sample_env blank_renderer).calls.filterMap builds =
      [.window, .vk_instance, .debug_hook, .device, .presentation_chain, .render_target_layout,
        .frame_buffers, .frame_buffers, .synchronization, .synchronization, .scene] ∧
    (create no_swap_chain_env blank_renderer).calls.filterMap builds =
      [.window, .vk_instance, .debug_hook, .device, .presentation_chain] ∧
    (create no_swap_chain_env blank_renderer).calls.getLast? = some (.swap_chain_create 8) ∧
    (create no_swap_chain_env blank_renderer).res ≠ .ok () :=
  ⟨(((create_build_order sample_env blank_renderer).2.1 rfl).1).trans (by decide),
    by decide, by decide,
    ((create_build_order no_swap_chain_env blank_renderer).2.2.2
      [.GLFWWindow_new, .window_create, .vkEnumerateInstanceLayerProperties false,
        .vkEnumerateInstanceLayerProperties true, .vkEnumerateInstanceExtensionProperties false,
        .vkEnumerateInstanceExtensionProperties true, .vkCreateInstance [] [] 1,
        .window_createSurface 1, .vkGetInstanceProcAddr 1 "vkCreateDebugReportCallbackEXT",
        .vkCreateDebugReportCallbackEXT 1 2, .vkEnumeratePhysicalDevices 1 false,
        .vkEnumeratePhysicalDevices 1 true, .VulkanDevice_new, .device_create 7,
        .device_isSuitable 7, .device_shutDown 7, .device_delete 7, .VulkanDevice_new,
        .device_create 8, .device_isSuitable 8, .device_createLogicalDevice 8,
        .VulkanSwapChain_new]
      (.swap_chain_create 8) [] (by decide) rfl rfl).2⟩

theorem found_in_iff (name : String) (available : List String) :
    found_in name available = true ↔ name ∈ available := by
  induction available with
  | nil => simp [found_in]
  | cons found rest ih =>
    by_cases h : name = found
    · simp [found_in, h]
    · simp [found_in, h, ih]

theorem all_found_iff (available requested : List String) :
    all_found available requested = true ↔ ∀ name ∈ requested, name ∈ available := by
  induction requested with
  | nil => simp [all_found]
  | cons name rest ih =>
    by_cases h : found_in name available = true
    · simp [all_found, h, ih, (found_in_iff name available).mp h]
    · have hn : name ∉ available := fun hm => h ((found_in_iff name available).mpr hm)
      simp [all_found, h, hn]

theorem checkValidationLayerSupport_eq (env : Env) (w : VulkanRenderer)
    (hl : ∀ fill, env.fails (.vkEnumerateInstanceLayerProperties fill) = false) :
    checkValidationLayerSupport env w =
      ⟨.ok (all_found env.available_layers env.used_validation_layers_), w,
        [.vkEnumerateInstanceLayerProperties false, .vkEnumerateInstanceLayerProperties true]⟩ := by
  simp [checkValidationLayerSupport, VV_CHECK_SUCCESS, hl, Out.after]

theorem checkInstanceExtensionSupport_eq (env : Env) (w : VulkanRenderer)
    (he : ∀ fill, env.fails (.vkEnumerateInstanceExtensionProperties fill) = false) :
    checkInstanceExtensionSupport env w =
      ⟨.ok (all_found env.available_extensions (getRequiredExtensions env)), w,
        [.vkEnumerateInstanceExtensionProperties false,
          .vkEnumerateInstanceExtensionProperties true]⟩ := by
  simp [checkInstanceExtensionSupport, VV_CHECK_SUCCESS, he, Out.after]

theorem createVulkanInstance_cases (env : Env) (w : VulkanRenderer) :
    ((createVulkanInstance env w).res = .error .runtime_error ∧
      (createVulkanInstance env w).st = w ∧
      ∀ c ∈ (createVulkanInstance env w).calls, is_instance_creation c = false) ∨
    (all_found env.available_layers env.used_validation_layers_ = true ∧
      all_found env.available_extensions (getRequiredExtensions env) = true ∧
      (createVulkanInstance env w).calls = instance_calls env w.issued) := by
  simp only [createVulkanInstance, checkValidationLayerSupport, checkInstanceExtensionSupport,
    bind_def, andThen_assoc, andThen_vk, VV_CHECK_SUCCESS, VV_ASSERT, instance_calls]
  by_cases h1 : env.fails (.vkEnumerateInstanceLayerProperties false) = true
  · simp [h1, is_instance_creation]
  by_cases h2 : env.fails (.vkEnumerateInstanceLayerProperties true) = true
  · simp [h1, h2, is_instance_creation]
  by_cases h3 : all_found env.available_layers env.used_validation_layers_ = true
  swap
  · simp [h1, h2, h3, is_instance_creation]
  by_cases h4 : env.fails (.vkEnumerateInstanceExtensionProperties false) = true
  · simp [h1, h2, h3, h4, is_instance_creation]
  by_cases h5 : env.fails (.vkEnumerateInstanceExtensionProperties true) = true
  · simp [h1, h2, h3, h4, h5, is_instance_creation]
  by_cases h6 : all_found env.available_extensions (getRequiredExtensions env) = true
  swap
  · simp [h1, h2, h3, h4, h5, h6, is_instance_creation]
  by_cases h7 : env.fails (.vkCreateInstance (getRequiredExtensions env)
        (if env.debug then env.used_validation_layers_ else []) w.issued) = true
  · simp [h1, h2, h3, h4, h5, h6, h7, Out.after]
  simp [h1, h2, h3, h4, h5, h6, h7, Out.after]

theorem createVulkanInstance_supported (env : Env) (w : VulkanRenderer)
    (hl : ∀ fill, env.fails (.vkEnumerateInstanceLayerProperties fill) = false)
    (he : ∀ fill, env.fails (.vkEnumerateInstanceExtensionProperties fill) = false)
    (h3 : all_found env.available_layers env.used_validation_layers_ = true)
    (h6 : all_found env.available_extensions (getRequiredExtensions env) = true) :
    (createVulkanInstance env w).calls = instance_calls env w.issued := by
  simp only [createVulkanInstance, checkValidationLayerSupport, checkInstanceExtensionSupport,
    bind_def, andThen_assoc, andThen_vk, VV_CHECK_SUCCESS, VV_ASSERT, instance_calls]
  by_cases h7 : env.fails (.vkCreateInstance (getRequiredExtensions env)
        (if env.debug then env.used_validation_layers_ else []) w.issued) = true
  · simp [hl, he, h3, h6, h7, Out.after]
  · simp [hl, he, h3, h6, h7, Out.after]

/-- C11: `createVulkanInstance` makes a `vkCreateInstance` call only if every requested
validation layer is among the available layers and every required extension (the
window's GLFW extensions followed by the hard-coded instance extensions) is among the
available extensions.  Conversely, when the two enumerations succeed and all names are
available, its calls are the four enumeration calls followed by `vkCreateInstance` with
the required extensions.  When some name is not available it throws, leaves the
renderer as it was and never calls `vkCreateInstance`.  `checkValidationLayerSupport`
and `checkInstanceExtensionSupport`, when their enumeration succeeds, return whether
the requested names are all among the available ones. -/
theorem createVulkanInstance_iff_supported (env : Env) (w : VulkanRenderer) :
    ((∃ c ∈ (createVulkanInstance env w).calls, is_instance_creation c = true) →
      (∀ layer ∈ env.used_validation_layers_, layer ∈ env.available_layers) ∧
      (∀ extension ∈ env.glfw_extensions ++ env.used_instance_extensions_,
        extension ∈ env.available_extensions)) ∧
    ((∀ fill, env.fails (.vkEnumerateInstanceLayerProperties fill) = false) →
      (∀ fill, env.fails (.vkEnumerateInstanceExtensionProperties fill) = false) →
      (∀ layer ∈ env.used_validation_layers_, layer ∈ env.available_layers) →
      (∀ extension ∈ env.glfw_extensions ++ env.used_instance_extensions_,
        extension ∈ env.available_extensions) →
      (createVulkanInstance env w).calls =
        [.vkEnumerateInstanceLayerProperties false, .vkEnumerateInstanceLayerProperties true,
          .vkEnumerateInstanceExtensionProperties false,
          .vkEnumerateInstanceExtensionProperties true,
          .vkCreateInstance (env.glfw_extensions ++ env.used_instance_extensions_)
            (if env.debug then env.used_validation_layers_ else []) w.issued]) ∧
    (¬ ((∀ layer ∈ env.used_validation_layers_, layer ∈ env.available_layers) ∧
        (∀ extension ∈ env.glfw_extensions ++ env.used_instance_extensions_,
          extension ∈ env.available_extensions)) →
      (createVulkanInstance env w).res = .error .runtime_error ∧
      (createVulkanInstance env w).st = w ∧
      ∀ c ∈ (createVulkanInstance env w).calls, is_instance_creation c = false) ∧
    ((∀ fill, env.fails (.vkEnumerateInstanceLayerProperties fill) = false) →
      (checkValidationLayerSupport env w).res =
        .ok (decide (∀ layer ∈ env.used_validation_layers_, layer ∈ env.available_layers))) ∧
    ((∀ fill, env.fails (.vkEnumerateInstanceExtensionProperties fill) = false) →
      (checkInstanceExtensionSupport env w).res =
        .ok (decide (∀ extension ∈ env.glfw_extensions ++ env.used_instance_extensions_,
          extension ∈ env.available_extensions))) := by
  have hL := all_found_iff env.available_layers env.used_validation_layers_
  have hE := all_found_iff env.available_extensions (getRequiredExtensions env)
  simp only [getRequiredExtensions] at hE
  refine ⟨?_, ?_, ?_, ?_, ?_⟩
  · rintro ⟨c, hc, hcc⟩
    rcases createVulkanInstance_cases env w with ⟨_, _, hno⟩ | ⟨h3, h6, _⟩
    · rw [hno c hc] at hcc
      cases hcc
    · exact ⟨hL.mp h3, hE.mp h6⟩
  · intro hl he h3 h6
    exact createVulkanInstance_supported env w hl he (hL.mpr h3) (hE.mpr h6)
  · intro hnot
    rcases createVulkanInstance_cases env w with h | ⟨h3, h6, _⟩
    · exact h
    · exact absurd ⟨hL.mp h3, hE.mp h6⟩ hnot
  · intro hl
    rw [checkValidationLayerSupport_eq env w hl]
    show Except.ok _ = Except.ok _
    congr 1
    rw [Bool.eq_iff_iff, hL]
    simp
  · intro he
    rw [checkInstanceExtensionSupport_eq env w he]
    show Except.ok _ = Except.ok _
    congr 1
    rw [Bool.eq_iff_iff]
    simp only [getRequiredExtensions, hE]
    simp

theorem createVulkanInstance_iff_supported_witness :
    (createVulkanInstance named_env blank_renderer).calls =
      [.vkEnumerateInstanceLayerProperties false, .vkEnumerateInstanceLayerProperties true,
        .vkEnumerateInstanceExtensionProperties false,
        .vkEnumerateInstanceExtensionProperties true,
        .vkCreateInstance ["VK_KHR_surface", "VK_KHR_xcb_surface", "VK_EXT_debug_report"]
          ["VK_LAYER_LUNARG_standard_validation"] 1] ∧
    (createVulkanInstance no_debug_report_env blank_renderer).res = .error .runtime_error ∧
    (createVulkanInstance no_debug_report_env blank_renderer).calls =
      [.vkEnumerateInstanceLayerProperties false, .vkEnumerateInstanceLayerProperties true,
        .vkEnumerateInstanceExtensionProperties false,
        .vkEnumerateInstanceExtensionProperties true] ∧
    (checkInstanceExtensionSupport no_debug_report_env blank_renderer).res = .ok false :=
  ⟨(createVulkanInstance_iff_supported named_env blank_renderer).2.1
      (fun _ => rfl) (fun _ => rfl) (by decide) (by decide),
    ((createVulkanInstance_iff_supported no_debug_report_env blank_renderer).2.2.1
      (by decide)).1,
    by decide,
    ((createVulkanInstance_iff_supported no_debug_report_env blank_renderer).2.2.2.2
      (fun _ => rfl)).trans (congrArg Except.ok (by decide))⟩

theorem Settings.inst_first (constructed : Settings) (m : Heap) (hnull : m.instance_ = none) :
    Settings.inst constructed m =
      some (m.objects.length,
        ⟨some m.objects.length, m.objects ++ [default_configuration]⟩) := by
  simp [Settings.inst, hnull, Heap.through, getElem?_append_cons_length,
    set_append_cons_length, Settings.setDefault, default_configuration]

theorem Settings.inst_later (constructed : Settings) (p : Nat) (m : Heap)
    (h : m.instance_ = some p) : Settings.inst constructed m = some (p, m) := by
  simp [Settings.inst, h]

theorem Settings.via_inst_later (constructed : Settings) (f : Settings → Settings) (p : Nat)
    (m : Heap) (this : Settings) (h : m.instance_ = some p) (hp : m.load p = some this) :
    Settings.via_inst constructed f m = some { m with objects := m.objects.set p (f this) } := by
  simp only [Heap.load] at hp
  simp [Settings.via_inst, Settings.inst_later constructed p m h, Heap.through, hp]

/-- C12: `Settings` is initialised lazily and once.  With `instance_` still null, the
first `Settings::inst()` makes one object and leaves it with the default configuration
(window 1920x1080, application name "VirtualVistaVulkan", engine name "VirtualVista",
graphics required, compute not required, on-screen rendering required).  Whenever
`instance_` is set, `inst()` returns that pointer and changes nothing, whatever was
written through it in between.  So after `setWindowWidth(w)` and `setWindowHeight(h)`
through `inst()`, a later `inst()` points to the same single object, whose getters
return `w` and `h` and, for every other setting, the default. -/
theorem Settings_inst_lazy_once (constructed : Settings) (m : Heap)
    (hnull : m.instance_ = none) (w h : Int) :
    Settings.inst constructed m =
      some (m.objects.length,
        ⟨some m.objects.length, m.objects ++ [default_configuration]⟩) ∧
    (∀ (later : Settings) (p : Nat) (m2 : Heap), m2.instance_ = some p →
      Settings.inst later m2 = some (p, m2)) ∧
    (∀ (later : Settings) (p : Nat) (m2 : Heap) (this : Settings),
      m2.instance_ = some p → m2.load p = some this →
      (Settings.via_inst later (Settings.setWindowWidth w) m2).bind
          (Settings.via_inst later (Settings.setWindowHeight h)) =
        some ⟨m2.instance_,
          m2.objects.set p { this with window_width_ := w, window_height_ := h }⟩) ∧
    ∃ this : Settings,
      Settings.resized constructed w h m =
        some (this, ⟨some m.objects.length, m.objects ++ [this]⟩) ∧
      this.getWindowWidth = w ∧ this.getWindowHeight = h ∧
      this.getApplicationName = "VirtualVistaVulkan" ∧
      this.getEngineName = "VirtualVista" ∧
      this.isGraphicsRequired = true ∧ this.isComputeRequired = false ∧
      this.isOnScreenRenderingRequired = true ∧ this.default_ = true := by
  have hset : ∀ (later : Settings) (p : Nat) (m2 : Heap) (this : Settings),
      m2.instance_ = some p → m2.load p = some this →
      (Settings.via_inst later (Settings.setWindowWidth w) m2).bind
          (Settings.via_inst later (Settings.setWindowHeight h)) =
        some ⟨m2.instance_,
          m2.objects.set p { this with window_width_ := w, window_height_ := h }⟩ := by
    intro later p m2 this hp hthis
    have hlt : p < m2.objects.length := by
      simp only [Heap.load] at hthis
      exact (List.getElem?_eq_some_iff.mp hthis).1
    have hthis2 : Heap.load ⟨m2.instance_, m2.objects.set p (Settings.setWindowWidth w this)⟩ p =
        some (Settings.setWindowWidth w this) := List.getElem?_set_self hlt
    rw [Settings.via_inst_later later _ p m2 this hp hthis, Option.some_bind,
      Settings.via_inst_later later _ p
        ⟨m2.instance_, m2.objects.set p (Settings.setWindowWidth w this)⟩
        (Settings.setWindowWidth w this) hp hthis2]
    simp [Settings.setWindowWidth, Settings.setWindowHeight]
  refine ⟨Settings.inst_first constructed m hnull,
    fun later p m2 hp => Settings.inst_later later p m2 hp, hset, ?_⟩
  refine ⟨{ default_configuration with window_width_ := w, window_height_ := h }, ?_,
    rfl, rfl, rfl, rfl, rfl, rfl, rfl, rfl⟩
  have hfirst := Settings.inst_first constructed m hnull
  have h2 := hset constructed m.objects.length
    ⟨some m.objects.length, m.objects ++ [default_configuration]⟩ default_configuration rfl
    (by simp [Heap.load])
  simp only [Settings.resized, hfirst, Option.bind_eq_bind, Option.some_bind]
  rw [← Option.bind_assoc, h2]
  simp [Settings.read_via_inst, Settings.inst, Heap.load, set_append_cons_length,
    getElem?_append_cons_length]

theorem Settings_inst_lazy_once_witness :
    start_heap.instance_ = none ∧
    Settings.inst raw_settings start_heap = some (0, ⟨some 0, [default_configuration]⟩) ∧
    Settings.inst raw_settings ⟨some 0, [default_configuration]⟩ =
      some (0, ⟨some 0, [default_configuration]⟩) ∧
    Settings.resized raw_settings 800 600 start_heap =
      some (⟨true, 800, 600, "VirtualVistaVulkan", "VirtualVista", true, false, true⟩,
        ⟨some 0, [⟨true, 800, 600, "VirtualVistaVulkan", "VirtualVista", true, false, true⟩]⟩) :=
  ⟨rfl, (Settings_inst_lazy_once raw_settings start_heap rfl 800 600).1,
    (Settings_inst_lazy_once raw_settings start_heap rfl 800 600).2.1 raw_settings 0 _ rfl,
    by decide⟩

theorem insertion_sort_sorts : sorts insertion_sort Shader.reflectDescriptorTypes.comp := by
  intro v
  refine ⟨List.perm_insertionSort _ v, ?_⟩
  have : IsTotal DescriptorInfo
      (fun l r => Shader.reflectDescriptorTypes.comp r l = false) :=
    ⟨fun l r => by
      simp only [Shader.reflectDescriptorTypes.comp, decide_eq_false_iff_not, Nat.not_lt]
      exact Nat.le_total l.binding r.binding⟩
  have : IsTrans DescriptorInfo
      (fun l r => Shader.reflectDescriptorTypes.comp r l = false) :=
    ⟨fun a b c => by
      simp only [Shader.reflectDescriptorTypes.comp, decide_eq_false_iff_not, Nat.not_lt]
      exact Nat.le_trans⟩
  exact List.sorted_insertionSort _ v

theorem uniform_buffer_accepted (shader_stage : VkShaderStageFlagBits)
    (r : spirv_cross.Resource) (this : Shader)
    (h : (r.set = 0 ∧ r.name = "lights") ∨ (r.set = 1 ∧ r.name = "properties") ∨ r.set = 2) :
    Shader.reflectDescriptorTypes.uniform_buffer shader_stage r this =
      .ok { this with
        material_descriptor_orderings := this.material_descriptor_orderings ++
          material_descriptors shader_stage .VK_DESCRIPTOR_TYPE_UNIFORM_BUFFER [r] } := by
  rcases h with ⟨h0, hn⟩ | ⟨h1, hn⟩ | h2
  · simp [Shader.reflectDescriptorTypes.uniform_buffer, material_descriptors, h0, hn]
  · simp [Shader.reflectDescriptorTypes.uniform_buffer, material_descriptors, h1, hn]
  · simp [Shader.reflectDescriptorTypes.uniform_buffer, material_descriptors, h2]

theorem uniform_buffer_returns (shader_stage : VkShaderStageFlagBits)
    (r : spirv_cross.Resource) (this after : Shader)
    (h : Shader.reflectDescriptorTypes.uniform_buffer shader_stage r this = .ok after) :
    (r.set = 0 ∧ r.name = "lights") ∨ (r.set = 1 ∧ r.name = "properties") ∨ r.set = 2 := by
  by_cases h0 : r.set = 0
  · by_cases hn : r.name = "lights"
    · exact Or.inl ⟨h0, hn⟩
    · simp [Shader.reflectDescriptorTypes.uniform_buffer, h0, hn] at h
  by_cases h1 : r.set = 1
  · by_cases hn : r.name = "properties"
    · exact Or.inr (Or.inl ⟨h1, hn⟩)
    · simp [Shader.reflectDescriptorTypes.uniform_buffer, h1, hn] at h
  by_cases h2 : r.set = 2
  · exact Or.inr (Or.inr h2)
  · simp [Shader.reflectDescriptorTypes.uniform_buffer, h0, h1, h2] at h

theorem sampled_image_accepted (shader_stage : VkShaderStageFlagBits)
    (r : spirv_cross.Resource) (this : Shader)
    (h : (r.set = 0 ∧ r.name = "lights") ∨
      (r.set = 1 ∧ r.name ∈ this._accepted_material_descriptors) ∨ r.set = 2) :
    Shader.reflectDescriptorTypes.sampled_image shader_stage r this =
      .ok { this with
        uses_environmental_lighting := this.uses_environmental_lighting || is_environment_map r
        material_descriptor_orderings := this.material_descriptor_orderings ++
          material_descriptors shader_stage .VK_DESCRIPTOR_TYPE_COMBINED_IMAGE_SAMPLER [r] } := by
  rcases h with ⟨h0, hn⟩ | ⟨h1, hn⟩ | h2
  · simp [Shader.reflectDescriptorTypes.sampled_image, material_descriptors,
      is_environment_map, h0, hn]
  · simp [Shader.reflectDescriptorTypes.sampled_image, material_descriptors,
      is_environment_map, h1, hn]
  · by_cases he : (r.name == "brdf_lut" || r.name == "d_irradiance_map" ||
        r.name == "s_irradiance_map") = true
    · simp [Shader.reflectDescriptorTypes.sampled_image, material_descriptors,
        is_environment_map, h2, he]
    · simp only [Bool.not_eq_true] at he
      simp [Shader.reflectDescriptorTypes.sampled_image, material_descriptors,
        is_environment_map, h2, he]

theorem sampled_image_returns (shader_stage : VkShaderStageFlagBits)
    (r : spirv_cross.Resource) (this after : Shader)
    (h : Shader.reflectDescriptorTypes.sampled_image shader_stage r this = .ok after) :
    (r.set = 0 ∧ r.name = "lights") ∨
      (r.set = 1 ∧ r.name ∈ this._accepted_material_descriptors) ∨ r.set = 2 := by
  by_cases h0 : r.set = 0
  · by_cases hn : r.name = "lights"
    · exact Or.inl ⟨h0, hn⟩
    · simp [Shader.reflectDescriptorTypes.sampled_image, h0, hn] at h
  by_cases h1 : r.set = 1
  · by_cases hn : r.name ∈ this._accepted_material_descriptors
    · exact Or.inr (Or.inl ⟨h1, hn⟩)
    · simp [Shader.reflectDescriptorTypes.sampled_image, h1, hn] at h
  by_cases h2 : r.set = 2
  · exact Or.inr (Or.inr h2)
  · simp [Shader.reflectDescriptorTypes.sampled_image, h0, h1, h2] at h

theorem material_descriptors_cons (shader_stage : VkShaderStageFlagBits)
    (type : VkDescriptorType) (r : spirv_cross.Resource) (rs : List spirv_cross.Resource) :
    material_descriptors shader_stage type (r :: rs) =
      material_descriptors shader_stage type [r] ++ material_descriptors shader_stage type rs := by
  by_cases h : r.set = 1 <;> simp [material_descriptors, List.filter_cons, h]

theorem uniform_buffers_accepted (shader_stage : VkShaderStageFlagBits)
    (rs : List spirv_cross.Resource) (this : Shader)
    (h : ∀ r ∈ rs, (r.set = 0 ∧ r.name = "lights") ∨ (r.set = 1 ∧ r.name = "properties") ∨
      r.set = 2) :
    Shader.forEach (Shader.reflectDescriptorTypes.uniform_buffer shader_stage) rs this =
      ⟨.ok (), { this with
        material_descriptor_orderings := this.material_descriptor_orderings ++
          material_descriptors shader_stage .VK_DESCRIPTOR_TYPE_UNIFORM_BUFFER rs }⟩ := by
  induction rs generalizing this with
  | nil => simp [Shader.forEach, material_descriptors]
  | cons r rs ih =>
    rw [Shader.forEach, uniform_buffer_accepted shader_stage r this (h r (List.mem_cons_self _ _))]
    simp only
    rw [ih _ (fun x hx => h x (List.mem_cons_of_mem _ hx)),
      material_descriptors_cons shader_stage _ r rs]
    simp

theorem uniform_buffers_return (shader_stage : VkShaderStageFlagBits)
    (rs : List spirv_cross.Resource) (this : Shader)
    (h : (Shader.forEach (Shader.reflectDescriptorTypes.uniform_buffer shader_stage) rs
      this).res = .ok ()) :
    ∀ r ∈ rs, (r.set = 0 ∧ r.name = "lights") ∨ (r.set = 1 ∧ r.name = "properties") ∨
      r.set = 2 := by
  induction rs generalizing this with
  | nil => simp
  | cons r rs ih =>
    intro x hx
    rw [Shader.forEach] at h
    cases hb : Shader.reflectDescriptorTypes.uniform_buffer shader_stage r this with
    | error what => simp [hb] at h
    | ok after =>
      rw [hb] at h
      rcases List.mem_cons.mp hx with rfl | hx
      · exact uniform_buffer_returns shader_stage _ this after hb
      · exact ih after h x hx

theorem sampled_images_accepted (shader_stage : VkShaderStageFlagBits)
    (rs : List spirv_cross.Resource) (this : Shader)
    (h : ∀ r ∈ rs, (r.set = 0 ∧ r.name = "lights") ∨
      (r.set = 1 ∧ r.name ∈ this._accepted_material_descriptors) ∨ r.set = 2) :
    Shader.forEach (Shader.reflectDescriptorTypes.sampled_image shader_stage) rs this =
      ⟨.ok (), { this with
        uses_environmental_lighting :=
          this.uses_environmental_lighting || rs.any is_environment_map
        material_descriptor_orderings := this.material_descriptor_orderings ++
          material_descriptors shader_stage .VK_DESCRIPTOR_TYPE_COMBINED_IMAGE_SAMPLER rs }⟩ := by
  induction rs generalizing this with
  | nil => simp [Shader.forEach, material_descriptors]
  | cons r rs ih =>
    rw [Shader.forEach, sampled_image_accepted shader_stage r this (h r (List.mem_cons_self _ _))]
    simp only
    have key := fun (s : Shader)
        (hs : s._accepted_material_descriptors = this._accepted_material_descriptors) =>
      ih s (fun x hx => by rw [hs]; exact h x (List.mem_cons_of_mem _ hx))
    refine (key _ (by rfl)).trans ?_
    rw [material_descriptors_cons shader_stage _ r rs]
    simp [Bool.or_assoc]

theorem sampled_image_keeps_accepted (shader_stage : VkShaderStageFlagBits)
    (r : spirv_cross.Resource) (this after : Shader)
    (h : Shader.reflectDescriptorTypes.sampled_image shader_stage r this = .ok after) :
    after._accepted_material_descriptors = this._accepted_material_descriptors := by
  rw [sampled_image_accepted shader_stage r this
    (sampled_image_returns shader_stage r this after h)] at h
  cases h
  rfl

theorem sampled_images_return (shader_stage : VkShaderStageFlagBits)
    (rs : List spirv_cross.Resource) (this : Shader)
    (h : (Shader.forEach (Shader.reflectDescriptorTypes.sampled_image shader_stage) rs
      this).res = .ok ()) :
    ∀ r ∈ rs, (r.set = 0 ∧ r.name = "lights") ∨
      (r.set = 1 ∧ r.name ∈ this._accepted_material_descriptors) ∨ r.set = 2 := by
  induction rs generalizing this with
  | nil => simp
  | cons r rs ih =>
    intro x hx
    rw [Shader.forEach] at h
    cases hb : Shader.reflectDescriptorTypes.sampled_image shader_stage r this with
    | error what => simp [hb] at h
    | ok after =>
      rw [hb] at h
      rcases List.mem_cons.mp hx with rfl | hx
      · exact sampled_image_returns shader_stage _ this after hb
      · have hrest := ih after h x hx
        rwa [sampled_image_keeps_accepted shader_stage r this after hb] at hrest

theorem push_constants_keeps (shader_stage : VkShaderStageFlagBits)
    (buffers : List (List spirv_cross.BufferRange)) (this : Shader) :
    (Shader.reflectDescriptorTypes.push_constants shader_stage buffers
        this).material_descriptor_orderings = this.material_descriptor_orderings ∧
      (Shader.reflectDescriptorTypes.push_constants shader_stage buffers
        this)._accepted_material_descriptors = this._accepted_material_descriptors := by
  unfold Shader.reflectDescriptorTypes.push_constants
  induction buffers generalizing this with
  | nil => exact ⟨rfl, rfl⟩
  | cons ranges buffers ih =>
    rw [List.foldl_cons]
    refine ⟨(ih _).1.trans ?_, (ih _).2.trans ?_⟩
    · induction ranges generalizing this with
      | nil => rfl
      | cons r ranges ih2 => rw [List.foldl_cons]; exact ih2 _
    · induction ranges generalizing this with
      | nil => rfl
      | cons r ranges ih2 => rw [List.foldl_cons]; exact ih2 _

theorem reflectDescriptorTypes_returns
    (std_sort : (DescriptorInfo → DescriptorInfo → Bool) → List DescriptorInfo →
      List DescriptorInfo)
    (resources : spirv_cross.ShaderResources) (shader_stage : VkShaderStageFlagBits)
    (this : Shader)
    (h : (Shader.reflectDescriptorTypes std_sort resources shader_stage this).res = .ok ()) :
    (∀ r ∈ resources.uniform_buffers,
      (r.set = 0 ∧ r.name = "lights") ∨ (r.set = 1 ∧ r.name = "properties") ∨ r.set = 2) ∧
    (∀ r ∈ resources.sampled_images,
      (r.set = 0 ∧ r.name = "lights") ∨
        (r.set = 1 ∧ r.name ∈ this._accepted_material_descriptors) ∨ r.set = 2) := by
  unfold Shader.reflectDescriptorTypes at h
  simp only at h
  generalize hU : Shader.forEach (Shader.reflectDescriptorTypes.uniform_buffer shader_stage)
    resources.uniform_buffers _ = oU at h
  rcases oU with ⟨rU, sU⟩
  cases rU with
  | error what => simp at h
  | ok u =>
    have hcU := uniform_buffers_return shader_stage _ _ (by rw [hU])
    refine ⟨hcU, ?_⟩
    rw [uniform_buffers_accepted _ _ _ hcU] at hU
    simp only at h
    generalize hS : Shader.forEach (Shader.reflectDescriptorTypes.sampled_image shader_stage)
      resources.sampled_images _ = oS at h
    rcases oS with ⟨rS, sS⟩
    cases rS with
    | error what => simp at h
    | ok u2 =>
      have hcS := sampled_images_return shader_stage _ _ (by rw [hS])
      injection hU with _ hsU
      rw [← hsU] at hcS
      simpa [(push_constants_keeps shader_stage resources.push_constant_buffers this).2]
        using hcS

theorem reflectDescriptorTypes_accepted
    (std_sort : (DescriptorInfo → DescriptorInfo → Bool) → List DescriptorInfo →
      List DescriptorInfo)
    (resources : spirv_cross.ShaderResources) (shader_stage : VkShaderStageFlagBits)
    (this : Shader)
    (hU : ∀ r ∈ resources.uniform_buffers,
      (r.set = 0 ∧ r.name = "lights") ∨ (r.set = 1 ∧ r.name = "properties") ∨ r.set = 2)
    (hS : ∀ r ∈ resources.sampled_images,
      (r.set = 0 ∧ r.name = "lights") ∨
        (r.set = 1 ∧ r.name ∈ this._accepted_material_descriptors) ∨ r.set = 2) :
    (Shader.reflectDescriptorTypes std_sort resources shader_stage this).res = .ok () ∧
    (Shader.reflectDescriptorTypes std_sort resources shader_stage
        this).shader.material_descriptor_orderings =
      std_sort Shader.reflectDescriptorTypes.comp
        (this.material_descriptor_orderings ++
          (material_descriptors shader_stage .VK_DESCRIPTOR_TYPE_UNIFORM_BUFFER
              resources.uniform_buffers ++
            material_descriptors shader_stage .VK_DESCRIPTOR_TYPE_COMBINED_IMAGE_SAMPLER
              resources.sampled_images)) := by
  have hk := push_constants_keeps shader_stage resources.push_constant_buffers this
  unfold Shader.reflectDescriptorTypes
  simp only
  rw [uniform_buffers_accepted _ _ _ hU]
  simp only
  rw [sampled_images_accepted _ _ _ (by simpa [hk.2] using hS)]
  simp [hk.1]

/-- C13: for whatever SPIRV-Cross reports of a binary, `Shader::reflectDescriptorTypes`
completes without throwing exactly when every uniform buffer is in set 0 and named
"lights", or in set 1 and named "properties", or in set 2, and every sampled image is in
set 0 and named "lights", or in set 1 with a name in `_accepted_material_descriptors`,
or in set 2.  When it completes, with a `std::sort` that does what the standard
promises, `material_descriptor_orderings` is a rearrangement of its previous entries
together with one descriptor for each set-1 uniform buffer and each set-1 sampled
image, and its bindings never decrease from an entry to a later one. -/
theorem reflectDescriptorTypes_completes_iff
    (std_sort : (DescriptorInfo → DescriptorInfo → Bool) → List DescriptorInfo →
      List DescriptorInfo)
    (resources : spirv_cross.ShaderResources) (shader_stage : VkShaderStageFlagBits)
    (this : Shader) (hsort : sorts std_sort Shader.reflectDescriptorTypes.comp) :
    ((Shader.reflectDescriptorTypes std_sort resources shader_stage this).res = .ok () ↔
      (∀ r ∈ resources.uniform_buffers,
        (r.set = 0 ∧ r.name = "lights") ∨ (r.set = 1 ∧ r.name = "properties") ∨ r.set = 2) ∧
      (∀ r ∈ resources.sampled_images,
        (r.set = 0 ∧ r.name = "lights") ∨
          (r.set = 1 ∧ r.name ∈ this._accepted_material_descriptors) ∨ r.set = 2)) ∧
    ((Shader.reflectDescriptorTypes std_sort resources shader_stage this).res = .ok () →
      (Shader.reflectDescriptorTypes std_sort resources shader_stage
          this).shader.material_descriptor_orderings.Perm
        (this.material_descriptor_orderings ++
          (material_descriptors shader_stage .VK_DESCRIPTOR_TYPE_UNIFORM_BUFFER
              resources.uniform_buffers ++
            material_descriptors shader_stage .VK_DESCRIPTOR_TYPE_COMBINED_IMAGE_SAMPLER
              resources.sampled_images)) ∧
      (Shader.reflectDescriptorTypes std_sort resources shader_stage
          this).shader.material_descriptor_orderings.Pairwise
        (fun l r => l.binding ≤ r.binding)) := by
  refine ⟨⟨reflectDescriptorTypes_returns std_sort resources shader_stage this,
    fun h => (reflectDescriptorTypes_accepted std_sort resources shader_stage this h.1 h.2).1⟩,
    fun hok => ?_⟩
  have hc := reflectDescriptorTypes_returns std_sort resources shader_stage this hok
  rw [(reflectDescriptorTypes_accepted std_sort resources shader_stage this hc.1 hc.2).2]
  refine ⟨(hsort _).1, (hsort _).2.imp ?_⟩
  intro l r hlr
  simpa [Shader.reflectDescriptorTypes.comp] using hlr

theorem reflectDescriptorTypes_completes_iff_witness :
    (Shader.reflectDescriptorTypes insertion_sort sample_resources
      .VK_SHADER_STAGE_FRAGMENT_BIT sample_shader).res = .ok () ∧
    (Shader.reflectDescriptorTypes insertion_sort sample_resources
      .VK_SHADER_STAGE_FRAGMENT_BIT sample_shader).shader.material_descriptor_orderings =
        [⟨0, "properties", .VK_SHADER_STAGE_FRAGMENT_BIT, .VK_DESCRIPTOR_TYPE_UNIFORM_BUFFER⟩,
          ⟨1, "albedo_map", .VK_SHADER_STAGE_FRAGMENT_BIT,
            .VK_DESCRIPTOR_TYPE_COMBINED_IMAGE_SAMPLER⟩,
          ⟨2, "normal_map", .VK_SHADER_STAGE_FRAGMENT_BIT,
            .VK_DESCRIPTOR_TYPE_COMBINED_IMAGE_SAMPLER⟩] ∧
    (Shader.reflectDescriptorTypes insertion_sort out_of_range_resources
      .VK_SHADER_STAGE_FRAGMENT_BIT sample_shader).res ≠ .ok () :=
  ⟨(reflectDescriptorTypes_completes_iff insertion_sort sample_resources
      .VK_SHADER_STAGE_FRAGMENT_BIT sample_shader insertion_sort_sorts).1.mpr (by decide),
    by decide,
    fun h => absurd ((reflectDescriptorTypes_completes_iff insertion_sort
      out_of_range_resources .VK_SHADER_STAGE_FRAGMENT_BIT sample_shader
      insertion_sort_sorts).1.mp h).1 (by decide)⟩

/-- Run twice in a row, with no `shutDown` and `create` in between and so over the same
frame-buffer set, `recordCommandBuffers` leaves the buffers of both runs allocated and
holds those of the second in `command_buffers_`: the function itself frees nothing, and
what frees the buffers of an earlier run is the `shutDown` of the device. -/
theorem recordCommandBuffers_twice_in_a_row (env : Env) (w : VulkanRenderer) (dev : Adapter)
    (hdev : w.physical_device_ = some dev)
    (hok : (recordCommandBuffers env w).res = .ok ())
    (hagain : (recordCommandBuffers env (recordCommandBuffers env w).st).res = .ok ()) :
    live_command_buffers env.fails
        ((recordCommandBuffers env w).calls ++
          (recordCommandBuffers env (recordCommandBuffers env w).st).calls) =
      (recordCommandBuffers env w).st.command_buffers_ ++
        (recordCommandBuffers env (recordCommandBuffers env w).st).st.command_buffers_ := by
  obtain ⟨_, _, _, heq1⟩ := recordCommandBuffers_ok env w hok
  have hdev2 : (recordCommandBuffers env w).st.physical_device_ = some dev := by
    rw [heq1]; exact hdev
  have hl1 := live_from_recordCommandBuffers env w dev hdev [] hok
  have hl2 := live_from_recordCommandBuffers env (recordCommandBuffers env w).st dev hdev2
    ((recordCommandBuffers env w).st.command_buffers_.map (.command_buffer dev)) hagain
  unfold live_command_buffers live
  rw [live_from_append, hl1, List.nil_append, hl2]
  simp [List.filterMap_append, List.filterMap_map, Function.comp_def, command_buffer_of]

end vv
